import Mathlib

/-
Shallow embedding of the UltraHDR session/orchestration layer in
`lib/src/ultrahdr_api.cpp`: value domain, input registries, effects pipeline
gating, encoder and decoder orchestrators, and the public retrievers.

Modelling conventions:
* C `float` fields are modelled as exact rationals (`ℚ`); the source only
  compares these fields (no float arithmetic is claim-relevant), and every
  literal that appears (`0.0f`, `1.0f`, `0.5`) is exactly representable.
* Buffers are modelled by their descriptors (format, gamut, transfer, range,
  dimensions, sizes); pixel and byte contents live behind the collaborator
  seams and are not modelled.
* External collaborators (the JPEG codec `JpegR`, the effect kernels
  `apply_rotate`/`apply_mirror`/`apply_crop`/`apply_resize`,
  `convert_raw_input_to_ycbcr`, the XMP metadata parser) are parameters of the
  orchestrator functions, mirroring the narrow interfaces the source calls.
* Nullable C pointers in public signatures are modelled as `Option`.
* `snprintf`-style messages are assembled with string append; numeric `%d`
  fields use `toString`, `%f` fields use a rational rendering, and `%p`
  pointer fields are left as their literal format text (pointers are not
  modelled).
-/

namespace UltraHdr

/-- Error codes of `uhdr_codec_err_t`. -/
inductive UhdrCodecErrCode where
  | ok
  | errUnknownError
  | errInvalidParam
  | errInvalidOperation
  | errUnsupportedFeature
  | errMemError
  deriving DecidableEq, Repr

/-- Source `uhdr_error_info_t`. The C struct also carries a `has_detail` flag that
only marks whether `detail` is meaningful; the flag itself is not modelled. -/
structure UhdrErrorInfo where
  errorCode : UhdrCodecErrCode
  detail : String
  deriving DecidableEq, Repr

/-- Source `g_no_error`. -/
def gNoError : UhdrErrorInfo := ⟨.ok, ""⟩

/-- Source `uhdr_img_label_t`. -/
inductive UhdrImgLabel where
  | hdrImg
  | sdrImg
  | baseImg
  | gainMapImg
  deriving DecidableEq, Repr

/-- Source `uhdr_img_fmt_t`. -/
inductive UhdrImgFmt where
  | unspecified
  | fmt24bppYCbCrP010
  | fmt12bppYCbCr420
  | fmt8bppYCbCr400
  | fmt32bppRGBA8888
  | fmt64bppRGBAHalfFloat
  | fmt32bppRGBA1010102
  deriving DecidableEq, Repr

/-- Source `uhdr_color_gamut_t`. -/
inductive UhdrColorGamut where
  | unspecified
  | bt709
  | displayP3
  | bt2100
  deriving DecidableEq, Repr

/-- Source `uhdr_color_transfer_t`. -/
inductive UhdrColorTransfer where
  | unspecified
  | linear
  | hlg
  | pq
  | srgb
  deriving DecidableEq, Repr

/-- Source `uhdr_color_range_t`. -/
inductive UhdrColorRange where
  | unspecifiedRange
  | limitedRange
  | fullRange
  deriving DecidableEq, Repr

/-- Source `uhdr_codec_t` (the output media type). -/
inductive UhdrCodecType where
  | jpg
  | heif
  | avif
  deriving DecidableEq, Repr

/-- Source `uhdr_mirror_direction_t`. -/
inductive UhdrMirrorDirection where
  | vertical
  | horizontal
  deriving DecidableEq, Repr

/-- Internal `ultrahdr::ultrahdr_color_gamut`. -/
inductive UltrahdrColorGamut where
  | unspecified
  | bt709
  | p3
  | bt2100
  deriving DecidableEq, Repr

/-- Internal `ultrahdr::ultrahdr_transfer_function`. -/
inductive UltrahdrTF where
  | unspecified
  | linear
  | hlg
  | pq
  | srgb
  deriving DecidableEq, Repr

/-- Internal `ultrahdr::ultrahdr_output_format`. -/
inductive UltrahdrOutputFormat where
  | unspecified
  | sdr
  | hdrLinear
  | hdrPq
  | hdrHlg
  deriving DecidableEq, Repr

/-- Internal `ultrahdr::status_t` values dispatched by
`map_internal_error_status_to_error_info`; every status not named there is
collapsed into `otherError` (the function's final `else`). -/
inductive InternalStatus where
  | noError
  | resolutionMismatch
  | encodeError
  | decodeError
  | noImagesFound
  | gainMapImageNotFound
  | bufferTooSmall
  | multipleExifsReceived
  | unsupportedMapScaleFactor
  | otherError
  deriving DecidableEq, Repr

/-- Source `map_cg_to_internal_cg`. -/
def mapCgToInternalCg : UhdrColorGamut → UltrahdrColorGamut
  | .bt2100 => .bt2100
  | .bt709 => .bt709
  | .displayP3 => .p3
  | _ => .unspecified

/-- Source `map_internal_cg_to_cg`. -/
def mapInternalCgToCg : UltrahdrColorGamut → UhdrColorGamut
  | .bt2100 => .bt2100
  | .bt709 => .bt709
  | .p3 => .displayP3
  | _ => .unspecified

/-- Source `map_ct_to_internal_ct`. -/
def mapCtToInternalCt : UhdrColorTransfer → UltrahdrTF
  | .hlg => .hlg
  | .pq => .pq
  | .linear => .linear
  | .srgb => .srgb
  | _ => .unspecified

/-- Source `map_ct_fmt_to_internal_output_fmt`. -/
def mapCtFmtToInternalOutputFmt (ct : UhdrColorTransfer) (fmt : UhdrImgFmt) :
    UltrahdrOutputFormat :=
  if ct = .hlg ∧ fmt = .fmt32bppRGBA1010102 then .hdrHlg
  else if ct = .pq ∧ fmt = .fmt32bppRGBA1010102 then .hdrPq
  else if ct = .linear ∧ fmt = .fmt64bppRGBAHalfFloat then .hdrLinear
  else if ct = .srgb ∧ fmt = .fmt32bppRGBA8888 then .sdr
  else .unspecified

/-- Source `map_internal_error_status_to_error_info`. The C function writes through
an out-parameter; it is modelled as returning the resulting record. A status
with no dedicated branch yields `UnknownError` with `has_detail = 0` (the
stale detail bytes are modelled as the empty string). -/
def mapInternalErrorStatusToErrorInfo : InternalStatus → UhdrErrorInfo
  | .noError => gNoError
  | .resolutionMismatch =>
      ⟨.errInvalidParam, "dimensions of sdr intent and hdr intent do not match"⟩
  | .encodeError =>
      ⟨.errUnknownError, "encountered unknown error during encoding"⟩
  | .decodeError =>
      ⟨.errUnknownError, "encountered unknown error during decoding"⟩
  | .noImagesFound =>
      ⟨.errUnknownError, "input uhdr image does not any valid images"⟩
  | .gainMapImageNotFound =>
      ⟨.errUnknownError, "input uhdr image does not contain gainmap image"⟩
  | .bufferTooSmall =>
      ⟨.errMemError, "output buffer to store compressed data is too small"⟩
  | .multipleExifsReceived =>
      ⟨.errInvalidOperation,
        "received exif from uhdr_enc_set_exif_data() while the base image intent already contains exif, unsure which one to use"⟩
  | .unsupportedMapScaleFactor =>
      ⟨.errUnsupportedFeature,
        "say base image wd to gain map image wd ratio is 'k1' and base image ht to gain map image ht ratio is 'k2', we found k1 != k2."⟩
  | .otherError => ⟨.errUnknownError, ""⟩

/-- Rendering of a C `%f` argument. The exact digits differ from `snprintf`
(`ℚ` is printed as a fraction); claims only inspect the fixed text around the
number, never the digit string itself. -/
def fmtF (q : ℚ) : String := toString q

/-- A finite map keyed by `uhdr_img_label_t`, the shape of the
`std::map<uhdr_img_label_t, ...>` registries of the session. -/
structure IntentMap (α : Type) where
  hdr : Option α
  sdr : Option α
  base : Option α
  gainMap : Option α
  deriving DecidableEq, Repr

/-- Source `std::map::find` (as an `Option`). -/
def IntentMap.find {α : Type} (m : IntentMap α) : UhdrImgLabel → Option α
  | .hdrImg => m.hdr
  | .sdrImg => m.sdr
  | .baseImg => m.base
  | .gainMapImg => m.gainMap

/-- Source `std::map::insert_or_assign`. -/
def IntentMap.insertOrAssign {α : Type} (m : IntentMap α) :
    UhdrImgLabel → α → IntentMap α
  | .hdrImg, v => { m with hdr := some v }
  | .sdrImg, v => { m with sdr := some v }
  | .baseImg, v => { m with base := some v }
  | .gainMapImg, v => { m with gainMap := some v }

/-- The empty registry. -/
def IntentMap.empty {α : Type} : IntentMap α := ⟨none, none, none, none⟩

/-- The quality registry: `uhdr_reset_encoder` populates all four intents, and
`insert_or_assign` preserves that, so the encoder's quality map is total. -/
structure QualityMap where
  hdr : Int
  sdr : Int
  base : Int
  gainMap : Int
  deriving DecidableEq, Repr

/-- Lookup (`m_quality.find(intent)->second`). -/
def QualityMap.get (m : QualityMap) : UhdrImgLabel → Int
  | .hdrImg => m.hdr
  | .sdrImg => m.sdr
  | .baseImg => m.base
  | .gainMapImg => m.gainMap

/-- Source `m_quality.insert_or_assign`. -/
def QualityMap.set (m : QualityMap) : UhdrImgLabel → Int → QualityMap
  | .hdrImg, v => { m with hdr := v }
  | .sdrImg, v => { m with sdr := v }
  | .baseImg, v => { m with base := v }
  | .gainMapImg, v => { m with gainMap := v }

/-- Descriptor of a session-owned raw image (`ultrahdr::uhdr_raw_image_ext_t`):
the owned byte block, plane pointers and strides are behind the collaborator
seam and not modelled. -/
structure UhdrRawImg where
  fmt : UhdrImgFmt
  cg : UhdrColorGamut
  ct : UhdrColorTransfer
  range : UhdrColorRange
  w : Nat
  h : Nat
  deriving DecidableEq, Repr

/-- Caller-side `uhdr_raw_image_t` argument: plane pointers are modelled by
their non-nullness, strides by their values. `UHDR_PLANE_UV` aliases index 1
(`planeU`/`strideU`), as in the public header. -/
structure UhdrRawImgIn where
  fmt : UhdrImgFmt
  cg : UhdrColorGamut
  ct : UhdrColorTransfer
  range : UhdrColorRange
  w : Nat
  h : Nat
  planeY : Bool
  planeU : Bool
  planeV : Bool
  strideY : Nat
  strideU : Nat
  strideV : Nat
  deriving DecidableEq, Repr

/-- Session-owned compressed image (`ultrahdr::uhdr_compressed_image_ext_t`):
byte contents abstracted, sizes kept. -/
structure UhdrCompressedImgExt where
  cg : UhdrColorGamut
  ct : UhdrColorTransfer
  range : UhdrColorRange
  dataSz : Nat
  capacity : Nat
  deriving DecidableEq, Repr

/-- Caller-side `uhdr_compressed_image_t` argument. -/
structure UhdrCompressedImgIn where
  dataNonNull : Bool
  dataSz : Nat
  capacity : Nat
  cg : UhdrColorGamut
  ct : UhdrColorTransfer
  range : UhdrColorRange
  deriving DecidableEq, Repr

/-- Caller-side `uhdr_mem_block_t` (exif attachment). -/
structure UhdrMemBlockIn where
  data : Option (List Nat)
  dataSz : Nat
  capacity : Nat
  deriving DecidableEq, Repr

/-- Source `uhdr_gainmap_metadata_t` (C floats as exact rationals). -/
structure UhdrGainmapMetadata where
  maxContentBoost : ℚ
  minContentBoost : ℚ
  gamma : ℚ
  offsetSdr : ℚ
  offsetHdr : ℚ
  hdrCapacityMin : ℚ
  hdrCapacityMax : ℚ
  deriving DecidableEq, Repr

/-- Internal `ultrahdr::ultrahdr_metadata_struct` handed to the codec. -/
structure UltrahdrMetadataStruct where
  version : String
  maxContentBoost : ℚ
  minContentBoost : ℚ
  gamma : ℚ
  offsetSdr : ℚ
  offsetHdr : ℚ
  hdrCapacityMin : ℚ
  hdrCapacityMax : ℚ
  deriving DecidableEq, Repr

/-- The effect records attached by `uhdr_add_effect_*`
(`uhdr_rotate_effect_t`, `uhdr_mirror_effect_t`, `uhdr_crop_effect_t`,
`uhdr_resize_effect_t`), as the tagged variant the `dynamic_cast` dispatch in
`apply_effects` distinguishes. -/
inductive UhdrEffect where
  | rotate (degrees : Int)
  | mirror (direction : UhdrMirrorDirection)
  | crop (left right top bottom : Int)
  | resize (width height : Int)
  deriving DecidableEq, Repr

/-- Modelled from the spec: the build-fixed raw-image dimension limits
`ultrahdr::kMinWidth`, `kMinHeight`, `kMaxWidth`, `kMaxHeight` live in the
library headers, outside this translation unit ("library limits; values fixed
per build"). Representative values are used; no claim depends on them. -/
def kMinWidth : Nat := 8

/-- Modelled from the spec: see `kMinWidth`. -/
def kMinHeight : Nat := 8

/-- Modelled from the spec: see `kMinWidth`. -/
def kMaxWidth : Nat := 8192

/-- Modelled from the spec: see `kMinWidth`. -/
def kMaxHeight : Nat := 8192

/-- Modelled from the spec: `ultrahdr::kJpegrVersion`, the file-format version
constant emitted with the metadata record (§6.1 of the spec). -/
def kJpegrVersion : String := "1.0"

/-- The encoder session state, `uhdr_encoder_private`. -/
structure UhdrEncoderPrivate where
  mEffects : List UhdrEffect
  mRawImages : IntentMap UhdrRawImg
  mCompressedImages : IntentMap UhdrCompressedImgExt
  mQuality : QualityMap
  mExif : List Nat
  mOutputFormat : UhdrCodecType
  mGainmapScaleFactor : Int
  mUseMultiChannelGainmap : Bool
  mSailed : Bool
  mCompressedOutputBuffer : Option UhdrCompressedImgExt
  mEncodeCallStatus : UhdrErrorInfo
  mMetadata : UhdrGainmapMetadata
  deriving DecidableEq, Repr

/-- The editor-helper collaborator seam (`apply_rotate`, `apply_mirror`,
`apply_crop`, `apply_resize`, `convert_raw_input_to_ycbcr`, and the effect
records' `to_string`). `apply_rotate`/`apply_mirror`/`apply_resize` return a
new owned buffer or null (`Option`); `apply_crop` adjusts the buffer in place
and cannot fail; the converters are modelled as total (the source stores their
result unconditionally at the call sites modelled here). -/
structure EffectOps where
  applyRotate : Int → UhdrRawImg → Option UhdrRawImg
  applyMirror : UhdrMirrorDirection → UhdrRawImg → Option UhdrRawImg
  applyCrop : UhdrRawImg → Int → Int → Int → Int → UhdrRawImg
  applyResize : Int → Int → UhdrRawImg → Option UhdrRawImg
  convertRawInputToYCbCr : UhdrRawImgIn → Option UhdrRawImg
  convertRawToYCbCr : UhdrRawImg → UhdrRawImg
  effectToString : UhdrEffect → String

/-- Detail string of the sealed-session rejection emitted by the encoder
configuration calls that check `m_sailed`. -/
def sealedStateErr : UhdrErrorInfo :=
  ⟨.errInvalidOperation,
    "An earlier call to uhdr_encode() has switched the context from configurable state to end state. The context is no longer configurable. To reuse, call reset()"⟩

/-- Crop-width failure of the encoder effects pipeline (`apply_effects`,
encoder overload), reporting the post-clamp width. -/
def cropWidthErr (cropWidth : Int) : UhdrErrorInfo :=
  ⟨.errInvalidParam,
    "unexpected crop dimensions. crop width is expected to be > 0 and even, crop width is "
      ++ toString cropWidth⟩

/-- Crop-height failure of the encoder effects pipeline, reporting the
post-clamp height. -/
def cropHeightErr (cropHeight : Int) : UhdrErrorInfo :=
  ⟨.errInvalidParam,
    "unexpected crop dimensions. crop height is expected to be > 0 and even, crop height is "
      ++ toString cropHeight⟩

/-- Resize-destination failure of the encoder effects pipeline. -/
def resizeDimsErr (dstW dstH : Int) : UhdrErrorInfo :=
  ⟨.errInvalidParam,
    "destination dimension cannot be zero or odd. dest image width is " ++ toString dstW
      ++ ", dest image height is " ++ toString dstH⟩

/-- Null result from an effect kernel (`apply_effects`, both overloads). -/
def effectUnknownErr (ops : EffectOps) (e : UhdrEffect) : UhdrErrorInfo :=
  ⟨.errUnknownError,
    "encountered unknown error while applying effect " ++ ops.effectToString e⟩

/-- The per-effect loop of `ultrahdr::apply_effects(uhdr_encoder_private*)`.
The C loop reads the HDR (and, when present, SDR) entry of `m_raw_images` at
each iteration and writes the replacement back; since every successful
iteration writes back, the registry always holds the carried pair, so the loop
is modelled by threading the pair and returning it together with the status
(the carried pair at an error stop equals the registry contents the C code
leaves behind). -/
def applyEffectsEncLoop (ops : EffectOps) (hdr : UhdrRawImg) (sdr : Option UhdrRawImg) :
    List UhdrEffect → UhdrRawImg × Option UhdrRawImg × UhdrErrorInfo
  | [] => (hdr, sdr, gNoError)
  | e :: rest =>
    match e with
    | .rotate degrees =>
      match ops.applyRotate degrees hdr, sdr.map (ops.applyRotate degrees) with
      | some hdr2, some (some sdr2) => applyEffectsEncLoop ops hdr2 (some sdr2) rest
      | some hdr2, none => applyEffectsEncLoop ops hdr2 none rest
      | _, _ => (hdr, sdr, effectUnknownErr ops e)
    | .mirror direction =>
      match ops.applyMirror direction hdr, sdr.map (ops.applyMirror direction) with
      | some hdr2, some (some sdr2) => applyEffectsEncLoop ops hdr2 (some sdr2) rest
      | some hdr2, none => applyEffectsEncLoop ops hdr2 none rest
      | _, _ => (hdr, sdr, effectUnknownErr ops e)
    | .crop l r t b =>
      let left := max 0 l
      let right := min (hdr.w : Int) r
      let cropWidth := right - left
      if cropWidth ≤ 0 ∨ cropWidth % 2 ≠ 0 then (hdr, sdr, cropWidthErr cropWidth)
      else
        let top := max 0 t
        let bottom := min (hdr.h : Int) b
        let cropHeight := bottom - top
        if cropHeight ≤ 0 ∨ cropHeight % 2 ≠ 0 then (hdr, sdr, cropHeightErr cropHeight)
        else
          let hdr2 := ops.applyCrop hdr left top cropWidth cropHeight
          let sdr2 := sdr.map (fun v => ops.applyCrop v left top cropWidth cropHeight)
          applyEffectsEncLoop ops hdr2 sdr2 rest
    | .resize dstW dstH =>
      if dstW = 0 ∨ dstH = 0 ∨ dstW % 2 ≠ 0 ∨ dstH % 2 ≠ 0 then
        (hdr, sdr, resizeDimsErr dstW dstH)
      else
        match ops.applyResize dstW dstH hdr, sdr.map (ops.applyResize dstW dstH) with
        | some hdr2, some (some sdr2) => applyEffectsEncLoop ops hdr2 (some sdr2) rest
        | some hdr2, none => applyEffectsEncLoop ops hdr2 none rest
        | _, _ => (hdr, sdr, effectUnknownErr ops e)

/-- Whether a `uhdr_crop_effect_t` ends the effect list (`m_effects.back()`
test after the loop). -/
def lastIsCrop : List UhdrEffect → Bool
  | [] => false
  | [e] => match e with | .crop _ _ _ _ => true | _ => false
  | _ :: rest => lastIsCrop rest

/-- Source `ultrahdr::apply_effects(uhdr_encoder_private*)`: run the loop over the
raw-image registry, then, when the final effect is a crop and an SDR intent is
present, re-materialise the SDR buffer through `convert_raw_input_to_ycbcr`
(contiguity repair). The C code dereferences the HDR registry entry
unconditionally; the `none` case is unreachable at the call sites (the encode
paths that run effects require a raw HDR intent). -/
def applyEffectsEnc (ops : EffectOps) (s : UhdrEncoderPrivate) :
    UhdrEncoderPrivate × UhdrErrorInfo :=
  match s.mRawImages.find .hdrImg with
  | none => (s, ⟨.errUnknownError, ""⟩)
  | some hdr0 =>
    let r := applyEffectsEncLoop ops hdr0 (s.mRawImages.find .sdrImg) s.mEffects
    let raws := s.mRawImages.insertOrAssign .hdrImg r.1
    let raws := match r.2.1 with
      | some v => raws.insertOrAssign .sdrImg v
      | none => raws
    if r.2.2.errorCode ≠ .ok then ({ s with mRawImages := raws }, r.2.2)
    else
      let raws :=
        if s.mEffects ≠ [] ∧ lastIsCrop s.mEffects then
          match r.2.1 with
          | some v => raws.insertOrAssign .sdrImg (ops.convertRawToYCbCr v)
          | none => raws
        else raws
      ({ s with mRawImages := raws }, gNoError)

/-- Source `uhdr_enc_validate_and_set_compressed_img`. The leading null-handle check
(`dynamic_cast` of the codec pointer) is the unmodelled null-session path; all
functions here take the (non-null) encoder state directly. The stored entry
copies the caller's bytes into a block of capacity `data_sz`. -/
def uhdr_enc_validate_and_set_compressed_img (s : UhdrEncoderPrivate)
    (img : Option UhdrCompressedImgIn) (intent : UhdrImgLabel) :
    UhdrEncoderPrivate × UhdrErrorInfo :=
  match img with
  | none => (s, ⟨.errInvalidParam, "received nullptr for compressed image handle"⟩)
  | some im =>
    if im.dataNonNull = false then
      (s, ⟨.errInvalidParam, "received nullptr for compressed img->data field"⟩)
    else if im.capacity < im.dataSz then
      (s, ⟨.errInvalidParam,
        "img->capacity " ++ toString im.capacity ++ " is less than img->data_sz "
          ++ toString im.dataSz⟩)
    else if s.mSailed then (s, sealedStateErr)
    else
      let entry : UhdrCompressedImgExt :=
        ⟨im.cg, im.ct, im.range, im.dataSz, im.dataSz⟩
      ({ s with mCompressedImages := s.mCompressedImages.insertOrAssign intent entry },
        gNoError)

/-- Source `uhdr_enc_set_using_multi_channel_gainmap`. Note: no `m_sailed` check. -/
def uhdr_enc_set_using_multi_channel_gainmap (s : UhdrEncoderPrivate)
    (useMultiChannelGainmap : Bool) : UhdrEncoderPrivate × UhdrErrorInfo :=
  ({ s with mUseMultiChannelGainmap := useMultiChannelGainmap }, gNoError)

/-- Source `uhdr_enc_set_gainmap_scale_factor`. Note: no `m_sailed` check. -/
def uhdr_enc_set_gainmap_scale_factor (s : UhdrEncoderPrivate)
    (gainmapScaleFactor : Int) : UhdrEncoderPrivate × UhdrErrorInfo :=
  ({ s with mGainmapScaleFactor := gainmapScaleFactor }, gNoError)

/-- Tail of `uhdr_enc_set_raw_image` after the resolution-mismatch checks:
sealed gate, colour conversion into a session-owned planar buffer
(`convert_raw_input_to_ycbcr`), registry insert. -/
def uhdr_enc_set_raw_image_commit (ops : EffectOps) (s : UhdrEncoderPrivate)
    (im : UhdrRawImgIn) (intent : UhdrImgLabel) :
    UhdrEncoderPrivate × UhdrErrorInfo :=
  if s.mSailed then (s, sealedStateErr)
  else
    match ops.convertRawInputToYCbCr im with
    | none =>
      (s, ⟨.errUnknownError, "encountered unknown error during color space conversion"⟩)
    | some entry =>
      ({ s with mRawImages := s.mRawImages.insertOrAssign intent entry }, gNoError)

/-- The pure validator chain of `uhdr_enc_set_raw_image` (the spec's
"validators" component: pure predicates over the input, never touching
session state), in source order. Every failing check of this chain sets
`UHDR_CODEC_INVALID_PARAM`, so only the first failure's detail string is
returned and the caller attaches the shared code; `%d` of enum-typed
arguments and `%p` of pointers are left as literal format text. -/
def uhdr_enc_set_raw_image_validate (im : UhdrRawImgIn) (intent : UhdrImgLabel) :
    Option String :=
  if intent ≠ .hdrImg ∧ intent ≠ .sdrImg then
    some
      ("invalid intent %d, expects one of \x7bUHDR_HDR_IMG, UHDR_SDR_IMG\x7d")
  else if intent = .hdrImg ∧ im.fmt ≠ .fmt24bppYCbCrP010 ∧ im.fmt ≠ .fmt32bppRGBA1010102 then
    some
      ("unsupported input pixel format for hdr intent %d, expects one of \x7bUHDR_IMG_FMT_24bppYCbCrP010, UHDR_IMG_FMT_32bppRGBA1010102\x7d")
  else if intent = .sdrImg ∧ im.fmt ≠ .fmt12bppYCbCr420 ∧ im.fmt ≠ .fmt32bppRGBA8888 then
    some
      ("unsupported input pixel format for sdr intent %d, expects one of \x7bUHDR_IMG_FMT_12bppYCbCr420, UHDR_IMG_FMT_32bppRGBA8888\x7d")
  else if im.cg ≠ .bt2100 ∧ im.cg ≠ .displayP3 ∧ im.cg ≠ .bt709 then
    some
      ("invalid input color gamut %d, expects one of \x7bUHDR_CG_BT_2100, UHDR_CG_DISPLAY_P3, UHDR_CG_BT_709\x7d")
  else if im.fmt = .fmt12bppYCbCr420 ∧ im.ct ≠ .srgb then
    some
      ("invalid input color transfer for sdr intent image %d, expects UHDR_CT_SRGB")
  else if im.fmt = .fmt24bppYCbCrP010 ∧ im.ct ≠ .hlg ∧ im.ct ≠ .linear ∧ im.ct ≠ .pq then
    some
      ("invalid input color transfer for hdr intent image %d, expects one of \x7bUHDR_CT_HLG, UHDR_CT_LINEAR, UHDR_CT_PQ\x7d")
  else if im.w % 2 ≠ 0 ∨ im.h % 2 ≠ 0 then
    some
      ("image dimensions cannot be odd, received image dimensions " ++ toString im.w
        ++ "x" ++ toString im.h)
  else if im.w < kMinWidth ∨ im.h < kMinHeight then
    some
      ("image dimensions cannot be less than " ++ toString kMinWidth ++ "x"
        ++ toString kMinHeight ++ ", received image dimensions " ++ toString im.w
        ++ "x" ++ toString im.h)
  else if im.w > kMaxWidth ∨ im.h > kMaxHeight then
    some
      ("image dimensions cannot be larger than " ++ toString kMaxWidth ++ "x"
        ++ toString kMaxHeight ++ ", received image dimensions " ++ toString im.w
        ++ "x" ++ toString im.h)
  else if im.fmt = .fmt24bppYCbCrP010 ∧
      (im.planeY = false ∨ im.planeU = false) then
    some
      ("received nullptr for data field(s), luma ptr %p, chroma_uv ptr %p")
  else if im.fmt = .fmt24bppYCbCrP010 ∧ im.strideY < im.w then
    some
      ("luma stride must not be smaller than width, stride=" ++ toString im.strideY
        ++ ", width=" ++ toString im.w)
  else if im.fmt = .fmt24bppYCbCrP010 ∧ im.strideU < im.w then
    some
      ("chroma_uv stride must not be smaller than width, stride=" ++ toString im.strideU
        ++ ", width=" ++ toString im.w)
  else if im.fmt = .fmt12bppYCbCr420 ∧
      (im.planeY = false ∨ im.planeU = false ∨ im.planeV = false) then
    some
      ("received nullptr for data field(s) luma ptr %p, chroma_u ptr %p, chroma_v ptr %p")
  else if im.fmt = .fmt12bppYCbCr420 ∧ im.strideY < im.w then
    some
      ("luma stride must not be smaller than width, stride=" ++ toString im.strideY
        ++ ", width=" ++ toString im.w)
  else if im.fmt = .fmt12bppYCbCr420 ∧ im.strideU < im.w / 2 then
    some
      ("chroma_u stride must not be smaller than width / 2, stride=" ++ toString im.strideU
        ++ ", width=" ++ toString im.w)
  else if im.fmt = .fmt12bppYCbCr420 ∧ im.strideV < im.w / 2 then
    some
      ("chroma_v stride must not be smaller than width / 2, stride=" ++ toString im.strideV
        ++ ", width=" ++ toString im.w)
  else none

/-- Source `uhdr_enc_set_raw_image`: null check, validator chain, resolution-mismatch
checks against the already attached counterpart, sealed gate, conversion and
registry insert. -/
def uhdr_enc_set_raw_image (ops : EffectOps) (s : UhdrEncoderPrivate)
    (img : Option UhdrRawImgIn) (intent : UhdrImgLabel) :
    UhdrEncoderPrivate × UhdrErrorInfo :=
  match img with
  | none => (s, ⟨.errInvalidParam, "received nullptr for raw image handle"⟩)
  | some im =>
    match uhdr_enc_set_raw_image_validate im intent with
    | some msg => (s, ⟨.errInvalidParam, msg⟩)
    | none =>
      match intent, s.mRawImages.find .sdrImg, s.mRawImages.find .hdrImg with
      | .hdrImg, some sdrEntry, _ =>
        if im.w ≠ sdrEntry.w ∨ im.h ≠ sdrEntry.h then
          (s, ⟨.errInvalidParam,
            "image resolutions mismatch: hdr intent: " ++ toString im.w ++ "x"
              ++ toString im.h ++ ", sdr intent: " ++ toString sdrEntry.w ++ "x"
              ++ toString sdrEntry.h⟩)
        else uhdr_enc_set_raw_image_commit ops s im intent
      | .sdrImg, _, some hdrEntry =>
        if im.w ≠ hdrEntry.w ∨ im.h ≠ hdrEntry.h then
          (s, ⟨.errInvalidParam,
            "image resolutions mismatch: sdr intent: " ++ toString im.w ++ "x"
              ++ toString im.h ++ ", hdr intent: " ++ toString hdrEntry.w ++ "x"
              ++ toString hdrEntry.h⟩)
        else uhdr_enc_set_raw_image_commit ops s im intent
      | _, _, _ => uhdr_enc_set_raw_image_commit ops s im intent

/-- Source `uhdr_enc_set_compressed_image`. The intent check computes an
`InvalidParam` status for intents other than HDR, SDR and BASE but then
discards it: the function unconditionally tail-calls
`uhdr_enc_validate_and_set_compressed_img` with the given intent. -/
def uhdr_enc_set_compressed_image (s : UhdrEncoderPrivate)
    (img : Option UhdrCompressedImgIn) (intent : UhdrImgLabel) :
    UhdrEncoderPrivate × UhdrErrorInfo :=
  uhdr_enc_validate_and_set_compressed_img s img intent

/-- Source `uhdr_enc_set_gainmap_image`: metadata bounds in source order, then the
compressed-image path with `UHDR_GAIN_MAP_IMG` intent, then the metadata copy. -/
def uhdr_enc_set_gainmap_image (s : UhdrEncoderPrivate)
    (img : Option UhdrCompressedImgIn) (metadata : Option UhdrGainmapMetadata) :
    UhdrEncoderPrivate × UhdrErrorInfo :=
  match metadata with
  | none => (s, ⟨.errInvalidParam, "received nullptr for gainmap metadata descriptor"⟩)
  | some md =>
    if md.maxContentBoost < md.minContentBoost then
      (s, ⟨.errInvalidParam,
        "received bad value for content boost min " ++ fmtF md.minContentBoost
          ++ " > max " ++ fmtF md.maxContentBoost⟩)
    else if md.gamma ≤ 0 then
      (s, ⟨.errInvalidParam,
        "received bad value for gamma " ++ fmtF md.gamma ++ ", expects > 0.0f"⟩)
    else if md.offsetSdr < 0 then
      (s, ⟨.errInvalidParam,
        "received bad value for offset sdr " ++ fmtF md.offsetSdr
          ++ ", expects to be >= 0.0f"⟩)
    else if md.offsetHdr < 0 then
      (s, ⟨.errInvalidParam,
        "received bad value for offset hdr " ++ fmtF md.offsetHdr
          ++ ", expects to be >= 0.0f"⟩)
    else if md.hdrCapacityMax < md.hdrCapacityMin then
      (s, ⟨.errInvalidParam,
        "received bad value for hdr capacity min " ++ fmtF md.hdrCapacityMin
          ++ " > max " ++ fmtF md.hdrCapacityMax⟩)
    else if md.hdrCapacityMin < 1 then
      (s, ⟨.errInvalidParam,
        "received bad value for hdr capacity min " ++ fmtF md.hdrCapacityMin
          ++ ", expects to be >= 1.0f"⟩)
    else
      let r := uhdr_enc_validate_and_set_compressed_img s img .gainMapImg
      if r.2.errorCode ≠ .ok then r
      else ({ r.1 with mMetadata := md }, r.2)

/-- Source `uhdr_enc_set_quality`. The intent check of the source can only fail for
values outside the four `uhdr_img_label_t` constructors and is therefore
vacuous over the closed enum. -/
def uhdr_enc_set_quality (s : UhdrEncoderPrivate) (quality : Int)
    (intent : UhdrImgLabel) : UhdrEncoderPrivate × UhdrErrorInfo :=
  if quality < 0 ∨ quality > 100 then
    (s, ⟨.errInvalidParam,
      "invalid quality factor " ++ toString quality ++ ", expects in range [0-100]"⟩)
  else if s.mSailed then (s, sealedStateErr)
  else ({ s with mQuality := s.mQuality.set intent quality }, gNoError)

/-- Source `uhdr_enc_set_exif_data`. -/
def uhdr_enc_set_exif_data (s : UhdrEncoderPrivate) (exif : Option UhdrMemBlockIn) :
    UhdrEncoderPrivate × UhdrErrorInfo :=
  match exif with
  | none => (s, ⟨.errInvalidParam, "received nullptr for exif image handle"⟩)
  | some e =>
    match e.data with
    | none => (s, ⟨.errInvalidParam, "received nullptr for exif->data field"⟩)
    | some bytes =>
      if e.capacity < e.dataSz then
        (s, ⟨.errInvalidParam,
          "exif->capacity " ++ toString e.capacity ++ " is less than exif->data_sz "
            ++ toString e.dataSz⟩)
      else if s.mSailed then (s, sealedStateErr)
      else ({ s with mExif := bytes.take e.dataSz }, gNoError)

/-- Source `uhdr_enc_set_output_format`. -/
def uhdr_enc_set_output_format (s : UhdrEncoderPrivate) (mediaType : UhdrCodecType) :
    UhdrEncoderPrivate × UhdrErrorInfo :=
  if mediaType ≠ .jpg then
    (s, ⟨.errUnsupportedFeature,
      "invalid output format %d, expects \x7bUHDR_CODEC_JPG\x7d"⟩)
  else if s.mSailed then (s, sealedStateErr)
  else ({ s with mOutputFormat := mediaType }, gNoError)

/-- Constructor arguments of `ultrahdr::JpegR` in `uhdr_encode`: gain-map
scale factor, gain-map quality, multi-channel flag. -/
structure JpegRCfg where
  mapDimensionScaleFactor : Int
  mapCompressQuality : Int
  useMultiChannelGainmap : Bool
  deriving DecidableEq, Repr

/-- The `JpegR::encodeJPEGR` collaborator seam: one field per overload
(API-0..API-4). Each call receives the `JpegR` configuration, the call's
image/metadata arguments (marshalling into `jpegr_*_struct`, plane pointers
and internal-gamut remapping happen at this seam), and the destination
capacity (`dest.maxLength`); it returns the internal status together with the
`dest.length` and `dest.colorGamut` it wrote. -/
structure EncCodecOps where
  encodeApi0 : JpegRCfg → UhdrRawImg → UltrahdrTF → Nat → Int → Option (List Nat) →
    InternalStatus × Nat × UltrahdrColorGamut
  encodeApi1 : JpegRCfg → UhdrRawImg → UhdrRawImg → UltrahdrTF → Nat → Int →
    Option (List Nat) → InternalStatus × Nat × UltrahdrColorGamut
  encodeApi2 : JpegRCfg → UhdrRawImg → UhdrRawImg → UhdrCompressedImgExt → UltrahdrTF →
    Nat → InternalStatus × Nat × UltrahdrColorGamut
  encodeApi3 : JpegRCfg → UhdrRawImg → UhdrCompressedImgExt → UltrahdrTF → Nat →
    InternalStatus × Nat × UltrahdrColorGamut
  encodeApi4 : JpegRCfg → UhdrCompressedImgExt → UhdrCompressedImgExt →
    UltrahdrMetadataStruct → Nat → InternalStatus × Nat × UltrahdrColorGamut

/-- The `InvalidOperation` rejection of effects on compressed-intent inputs
(APIs 2, 3 and 4 of `uhdr_encode`). -/
def imgEffectsNotEnabledErr : UhdrErrorInfo :=
  ⟨.errInvalidOperation, "image effects are not enabled for inputs with compressed intent"⟩

/-- The `InvalidOperation` result when no encode path matches. -/
def noResourcesErr : UhdrErrorInfo :=
  ⟨.errInvalidOperation, "resources required for uhdr_encode() operation are not present"⟩

/-- Effects-gating phase of `uhdr_encode` (the first `if`/`else if` ladder):
returns the state to continue with, or the state/status pair of an early
return. Wherever the C code assigns through the `status` reference it is
assigning `m_encode_call_status`; the model mirrors that by storing the status
it returns. -/
def uhdrEncodeEffectsPhase (eops : EffectOps) (s : UhdrEncoderPrivate) :
    UhdrEncoderPrivate ⊕ (UhdrEncoderPrivate × UhdrErrorInfo) :=
  if (s.mCompressedImages.find .baseImg).isSome ∧
      (s.mCompressedImages.find .gainMapImg).isSome then
    if s.mEffects ≠ [] then
      .inr ({ s with mEncodeCallStatus := imgEffectsNotEnabledErr }, imgEffectsNotEnabledErr)
    else .inl s
  else if (s.mRawImages.find .hdrImg).isSome then
    if (s.mCompressedImages.find .sdrImg).isNone ∧ (s.mRawImages.find .sdrImg).isNone then
      -- api - 0
      if s.mEffects ≠ [] then
        let r := applyEffectsEnc eops s
        let s2 := { r.1 with mEncodeCallStatus := r.2 }
        if r.2.errorCode ≠ .ok then .inr (s2, r.2) else .inl s2
      else .inl s
    else if (s.mCompressedImages.find .sdrImg).isSome ∧
        (s.mRawImages.find .sdrImg).isNone then
      if s.mEffects ≠ [] then
        .inr ({ s with mEncodeCallStatus := imgEffectsNotEnabledErr }, imgEffectsNotEnabledErr)
      else .inl s
    else if (s.mRawImages.find .sdrImg).isSome then
      if (s.mCompressedImages.find .sdrImg).isNone then
        if s.mEffects ≠ [] then
          let r := applyEffectsEnc eops s
          let s2 := { r.1 with mEncodeCallStatus := r.2 }
          if r.2.errorCode ≠ .ok then .inr (s2, r.2) else .inl s2
        else .inl s
      else
        if s.mEffects ≠ [] then
          .inr ({ s with mEncodeCallStatus := imgEffectsNotEnabledErr },
            imgEffectsNotEnabledErr)
        else .inl s
    else .inl s
  else .inl s

/-- Shared tail of the codec phase: map the internal status into
`m_encode_call_status`; on success adopt `dest.length` and the codec's
destination gamut into the output buffer. -/
def uhdrEncodeFinish (s : UhdrEncoderPrivate) (outBuf : UhdrCompressedImgExt)
    (r : InternalStatus × Nat × UltrahdrColorGamut) :
    UhdrEncoderPrivate × UhdrErrorInfo :=
  let st := mapInternalErrorStatusToErrorInfo r.1
  let outBuf2 :=
    if st.errorCode = .ok then
      { outBuf with dataSz := r.2.1, cg := mapInternalCgToCg r.2.2 }
    else outBuf
  ({ s with mCompressedOutputBuffer := some outBuf2, mEncodeCallStatus := st }, st)

/-- Codec phase of `uhdr_encode` (the `m_output_format == UHDR_CODEC_JPG`
block): shape dispatch to API-4 / API-0 / API-3 / API-1 / API-2, output-buffer
provisioning, codec invocation, result adoption. With a non-JPEG output format
the block is skipped and the stored (unchanged) status is returned. -/
def uhdrEncodeCodecPhase (cops : EncCodecOps) (s : UhdrEncoderPrivate) :
    UhdrEncoderPrivate × UhdrErrorInfo :=
  if s.mOutputFormat ≠ .jpg then (s, s.mEncodeCallStatus)
  else
    let exifArg : Option (List Nat) := if s.mExif.length > 0 then some s.mExif else none
    let cfg : JpegRCfg :=
      ⟨s.mGainmapScaleFactor, s.mQuality.get .gainMapImg, s.mUseMultiChannelGainmap⟩
    match s.mCompressedImages.find .baseImg, s.mCompressedImages.find .gainMapImg with
    | some baseEntry, some gainmapEntry =>
      -- api - 4
      let metadata : UltrahdrMetadataStruct :=
        ⟨kJpegrVersion, s.mMetadata.maxContentBoost, s.mMetadata.minContentBoost,
          s.mMetadata.gamma, s.mMetadata.offsetSdr, s.mMetadata.offsetHdr,
          s.mMetadata.hdrCapacityMin, s.mMetadata.hdrCapacityMax⟩
      let size := max (8 * 1024) (2 * (baseEntry.dataSz + gainmapEntry.dataSz))
      let outBuf : UhdrCompressedImgExt :=
        ⟨.unspecified, .unspecified, .unspecifiedRange, 0, size⟩
      uhdrEncodeFinish s outBuf (cops.encodeApi4 cfg baseEntry gainmapEntry metadata size)
    | _, _ =>
      match s.mRawImages.find .hdrImg with
      | some hdrRawEntry =>
        let size := max (8 * 1024) (hdrRawEntry.w * hdrRawEntry.h * 3 * 2)
        let outBuf : UhdrCompressedImgExt :=
          ⟨.unspecified, .unspecified, .unspecifiedRange, 0, size⟩
        let tf := mapCtToInternalCt hdrRawEntry.ct
        if (s.mCompressedImages.find .sdrImg).isNone ∧
            (s.mRawImages.find .sdrImg).isNone then
          -- api - 0
          uhdrEncodeFinish s outBuf
            (cops.encodeApi0 cfg hdrRawEntry tf size (s.mQuality.get .baseImg) exifArg)
        else
          match s.mCompressedImages.find .sdrImg, s.mRawImages.find .sdrImg with
          | some sdrCompressedEntry, none =>
            -- api - 3
            uhdrEncodeFinish s outBuf
              (cops.encodeApi3 cfg hdrRawEntry sdrCompressedEntry tf size)
          | none, some sdrRawEntry =>
            -- api - 1
            uhdrEncodeFinish s outBuf
              (cops.encodeApi1 cfg hdrRawEntry sdrRawEntry tf size
                (s.mQuality.get .baseImg) exifArg)
          | some sdrCompressedEntry, some sdrRawEntry =>
            -- api - 2
            uhdrEncodeFinish s outBuf
              (cops.encodeApi2 cfg hdrRawEntry sdrRawEntry sdrCompressedEntry tf size)
          | none, none => (s, s.mEncodeCallStatus)
      | none =>
        ({ s with mEncodeCallStatus := noResourcesErr }, noResourcesErr)

/-- Source `uhdr_encode`: idempotence gate, seal, effects gating, codec phase. -/
def uhdr_encode (eops : EffectOps) (cops : EncCodecOps) (s : UhdrEncoderPrivate) :
    UhdrEncoderPrivate × UhdrErrorInfo :=
  if s.mSailed then (s, s.mEncodeCallStatus)
  else
    let s := { s with mSailed := true }
    match uhdrEncodeEffectsPhase eops s with
    | .inr r => r
    | .inl s2 => uhdrEncodeCodecPhase cops s2

/-- Source `uhdr_get_encoded_stream`. -/
def uhdr_get_encoded_stream (s : UhdrEncoderPrivate) : Option UhdrCompressedImgExt :=
  if ¬s.mSailed ∨ s.mEncodeCallStatus.errorCode ≠ .ok then none
  else s.mCompressedOutputBuffer

/-- Per-image results of `JpegR::getJPEGRInfo` (`jpeg_info_struct`). -/
structure JpegInfo where
  width : Nat
  height : Nat
  exifData : List Nat
  iccData : List Nat
  xmpData : List Nat
  deriving DecidableEq, Repr

/-- The decoder-side collaborator seam: `JpegR::getJPEGRInfo`,
`getMetadataFromXMP`, and `JpegR::decodeJPEGR`. `getJPEGRInfo` returns the
internal status and the primary/gain-map info records it filled;
`decodeJPEGR` writes the decoded surfaces behind the seam and returns the
internal status and the destination gamut it reported. -/
structure DecCodecOps where
  getJPEGRInfo : UhdrCompressedImgExt → InternalStatus × JpegInfo × JpegInfo
  getMetadataFromXMP : List Nat → Option UltrahdrMetadataStruct
  decodeJPEGR : UhdrCompressedImgExt → ℚ → UltrahdrOutputFormat →
    InternalStatus × UltrahdrColorGamut

/-- The decoder session state, `uhdr_decoder_private`. The borrowed-pointer
aliases `m_exif_block`/`m_icc_block` only re-expose `m_exif`/`m_icc` and are
not modelled separately. -/
structure UhdrDecoderPrivate where
  mEffects : List UhdrEffect
  mUhdrCompressedImg : Option UhdrCompressedImgExt
  mOutputFmt : UhdrImgFmt
  mOutputCt : UhdrColorTransfer
  mOutputMaxDispBoost : ℚ
  mProbed : Bool
  mSailed : Bool
  mDecodedImgBuffer : Option UhdrRawImg
  mGainmapImgBuffer : Option UhdrRawImg
  mImgWd : Nat
  mImgHt : Nat
  mGainmapWd : Nat
  mGainmapHt : Nat
  mExif : List Nat
  mIcc : List Nat
  mBaseXmp : List Nat
  mGainmapXmp : List Nat
  mMetadata : UhdrGainmapMetadata
  mProbeCallStatus : UhdrErrorInfo
  mDecodeCallStatus : UhdrErrorInfo
  deriving DecidableEq, Repr

/-- Source `uhdr_dec_probe`: idempotence gate, header/XMP extraction, dimension and
metadata capture. Every assignment through the C `status` reference is an
assignment of `m_probe_call_status`, mirrored by storing the returned status. -/
def uhdr_dec_probe (ops : DecCodecOps) (s : UhdrDecoderPrivate) :
    UhdrDecoderPrivate × UhdrErrorInfo :=
  if s.mProbed then (s, s.mProbeCallStatus)
  else
    let s := { s with mProbed := true }
    match s.mUhdrCompressedImg with
    | none =>
      let st : UhdrErrorInfo := ⟨.errInvalidOperation, "did not receive any image for decoding"⟩
      ({ s with mProbeCallStatus := st }, st)
    | some img =>
      let r := ops.getJPEGRInfo img
      let st := mapInternalErrorStatusToErrorInfo r.1
      if st.errorCode ≠ .ok then ({ s with mProbeCallStatus := st }, st)
      else
        match ops.getMetadataFromXMP r.2.2.xmpData with
        | none =>
          let st2 : UhdrErrorInfo :=
            ⟨.errUnknownError, "encountered error while parsing metadata"⟩
          ({ s with mProbeCallStatus := st2 }, st2)
        | some metadata =>
          ({ s with
              mMetadata :=
                ⟨metadata.maxContentBoost, metadata.minContentBoost, metadata.gamma,
                  metadata.offsetSdr, metadata.offsetHdr, metadata.hdrCapacityMin,
                  metadata.hdrCapacityMax⟩,
              mImgWd := r.2.1.width, mImgHt := r.2.1.height,
              mGainmapWd := r.2.2.width, mGainmapHt := r.2.2.height,
              mExif := r.2.1.exifData, mIcc := r.2.1.iccData,
              mBaseXmp := r.2.1.xmpData, mGainmapXmp := r.2.2.xmpData,
              mProbeCallStatus := st }, st)

/-- Truncation of a nonnegative C float-to-int conversion, used for the
gain-map crop/resize coordinates (`int gm_left = left / wd_ratio;` etc.). The
source computes the ratio in `float`; it is modelled exactly over `ℚ`, and the
conversion as `Rat.floor` (the operands are nonnegative wherever the source
reaches these conversions, where truncation and floor agree). -/
def qTruncToInt (q : ℚ) : Int := q.floor

/-- The per-effect loop of `ultrahdr::apply_effects(uhdr_decoder_private*)`,
threading the (decoded image, gain map) pair; the pair returned at an error
stop equals the buffers the C code leaves behind (see `applyEffectsEncLoop`). -/
def applyEffectsDecLoop (ops : EffectOps) (disp gm : UhdrRawImg) :
    List UhdrEffect → UhdrRawImg × UhdrRawImg × UhdrErrorInfo
  | [] => (disp, gm, gNoError)
  | e :: rest =>
    match e with
    | .rotate degrees =>
      match ops.applyRotate degrees disp, ops.applyRotate degrees gm with
      | some disp2, some gm2 => applyEffectsDecLoop ops disp2 gm2 rest
      | _, _ => (disp, gm, effectUnknownErr ops e)
    | .mirror direction =>
      match ops.applyMirror direction disp, ops.applyMirror direction gm with
      | some disp2, some gm2 => applyEffectsDecLoop ops disp2 gm2 rest
      | _, _ => (disp, gm, effectUnknownErr ops e)
    | .crop l r t b =>
      let left := max 0 l
      let right := min (disp.w : Int) r
      if right ≤ left then
        (disp, gm, ⟨.errInvalidParam,
          "unexpected crop dimensions. crop right is <= crop left, after crop image width is "
            ++ toString (right - left)⟩)
      else
        let top := max 0 t
        let bottom := min (disp.h : Int) b
        if bottom ≤ top then
          (disp, gm, ⟨.errInvalidParam,
            "unexpected crop dimensions. crop bottom is <= crop top, after crop image height is "
              ++ toString (bottom - top)⟩)
        else
          let wr : ℚ := (disp.w : ℚ) / (gm.w : ℚ)
          let hr : ℚ := (disp.h : ℚ) / (gm.h : ℚ)
          let gmLeft := qTruncToInt ((left : ℚ) / wr)
          let gmRight := qTruncToInt ((right : ℚ) / wr)
          if gmRight ≤ gmLeft then
            (disp, gm, ⟨.errInvalidParam,
              "unexpected crop dimensions. crop right is <= crop left for gainmap image, after crop gainmap image width is "
                ++ toString (gmRight - gmLeft)⟩)
          else
            let gmTop := qTruncToInt ((top : ℚ) / hr)
            let gmBottom := qTruncToInt ((bottom : ℚ) / hr)
            if gmBottom ≤ gmTop then
              (disp, gm, ⟨.errInvalidParam,
                "unexpected crop dimensions. crop bottom is <= crop top for gainmap image, after crop gainmap image height is "
                  ++ toString (gmBottom - gmTop)⟩)
            else
              let disp2 := ops.applyCrop disp left top (right - left) (bottom - top)
              let gm2 := ops.applyCrop gm gmLeft gmTop (gmRight - gmLeft) (gmBottom - gmTop)
              applyEffectsDecLoop ops disp2 gm2 rest
    | .resize dstW dstH =>
      let wr : ℚ := (disp.w : ℚ) / (gm.w : ℚ)
      let hr : ℚ := (disp.h : ℚ) / (gm.h : ℚ)
      let dstGmW := qTruncToInt ((dstW : ℚ) / wr)
      let dstGmH := qTruncToInt ((dstH : ℚ) / hr)
      if dstW = 0 ∨ dstH = 0 ∨ dstGmW = 0 ∨ dstGmH = 0 then
        (disp, gm, ⟨.errInvalidParam,
          "destination dimension cannot be zero. dest image width is " ++ toString dstW
            ++ ", dest image height is " ++ toString dstH ++ ", dest gainmap width is "
            ++ toString dstGmW ++ ", dest gainmap height is " ++ toString dstGmH⟩)
      else
        match ops.applyResize dstW dstH disp, ops.applyResize dstGmW dstGmH gm with
        | some disp2, some gm2 => applyEffectsDecLoop ops disp2 gm2 rest
        | _, _ => (disp, gm, effectUnknownErr ops e)

/-- Source `ultrahdr::apply_effects(uhdr_decoder_private*)`. The decoded-image and
gain-map buffers are non-null at the call site (`uhdr_decode` allocates both
before applying effects); the `none` case is unreachable there. -/
def applyEffectsDec (ops : EffectOps) (s : UhdrDecoderPrivate) :
    UhdrDecoderPrivate × UhdrErrorInfo :=
  match s.mDecodedImgBuffer, s.mGainmapImgBuffer with
  | some disp, some gm =>
    let r := applyEffectsDecLoop ops disp gm s.mEffects
    ({ s with mDecodedImgBuffer := some r.1, mGainmapImgBuffer := some r.2.1 }, r.2.2)
  | _, _ => (s, ⟨.errUnknownError, ""⟩)

/-- Source `uhdr_decode`: idempotence gate, implicit probe, output-format table
lookup, surface allocation at the probe dimensions, codec invocation, effects.
Every assignment through the C `status` reference is an assignment of
`m_decode_call_status`, mirrored by storing each returned status. -/
def uhdr_decode (dops : DecCodecOps) (eops : EffectOps) (s : UhdrDecoderPrivate) :
    UhdrDecoderPrivate × UhdrErrorInfo :=
  if s.mSailed then (s, s.mDecodeCallStatus)
  else
    let pr := uhdr_dec_probe dops s
    let s := { pr.1 with mDecodeCallStatus := pr.2 }
    if pr.2.errorCode ≠ .ok then (s, pr.2)
    else
      let s := { s with mSailed := true }
      let outputFormat := mapCtFmtToInternalOutputFmt s.mOutputCt s.mOutputFmt
      if outputFormat = .unspecified then
        let st : UhdrErrorInfo :=
          ⟨.errInvalidParam, "unsupported output pixel format and output color transfer pair"⟩
        ({ s with mDecodeCallStatus := st }, st)
      else
        match s.mUhdrCompressedImg with
        | none => (s, s.mDecodeCallStatus)
        | some img =>
          let decodedBuf : UhdrRawImg :=
            ⟨s.mOutputFmt, .unspecified, s.mOutputCt, .unspecifiedRange, s.mImgWd, s.mImgHt⟩
          let gmBuf : UhdrRawImg :=
            ⟨.fmt8bppYCbCr400, .unspecified, .unspecified, .unspecifiedRange,
              s.mGainmapWd, s.mGainmapHt⟩
          let r := dops.decodeJPEGR img s.mOutputMaxDispBoost outputFormat
          let st := mapInternalErrorStatusToErrorInfo r.1
          let s := { s with
            mDecodeCallStatus := st,
            mDecodedImgBuffer :=
              some (if st.errorCode = .ok then { decodedBuf with cg := mapInternalCgToCg r.2 }
                    else decodedBuf),
            mGainmapImgBuffer := some gmBuf }
          if st.errorCode = .ok ∧ s.mEffects ≠ [] then
            let r2 := applyEffectsDec eops s
            ({ r2.1 with mDecodeCallStatus := r2.2 }, r2.2)
          else (s, st)

/-- Source `uhdr_dec_get_image_width`. -/
def uhdr_dec_get_image_width (s : UhdrDecoderPrivate) : Int :=
  if ¬s.mProbed ∨ s.mProbeCallStatus.errorCode ≠ .ok then -1 else (s.mImgWd : Int)

/-- Source `uhdr_dec_get_image_height`. -/
def uhdr_dec_get_image_height (s : UhdrDecoderPrivate) : Int :=
  if ¬s.mProbed ∨ s.mProbeCallStatus.errorCode ≠ .ok then -1 else (s.mImgHt : Int)

/-- Source `uhdr_dec_get_gainmap_width`. -/
def uhdr_dec_get_gainmap_width (s : UhdrDecoderPrivate) : Int :=
  if ¬s.mProbed ∨ s.mProbeCallStatus.errorCode ≠ .ok then -1 else (s.mGainmapWd : Int)

/-- Source `uhdr_dec_get_gainmap_height`. -/
def uhdr_dec_get_gainmap_height (s : UhdrDecoderPrivate) : Int :=
  if ¬s.mProbed ∨ s.mProbeCallStatus.errorCode ≠ .ok then -1 else (s.mGainmapHt : Int)

/-- Source `uhdr_add_effect_mirror` on an encoder handle. The source's four
`uhdr_add_effect_*` functions act on the polymorphic `uhdr_codec_private`
base (they touch only `m_effects` and check only for a null handle); they are
modelled once per session kind. -/
def uhdr_add_effect_mirror (s : UhdrEncoderPrivate) (direction : UhdrMirrorDirection) :
    UhdrEncoderPrivate × UhdrErrorInfo :=
  -- The direction check can only fail for values outside the closed enum.
  ({ s with mEffects := s.mEffects ++ [.mirror direction] }, gNoError)

/-- Source `uhdr_add_effect_rotate` on an encoder handle. -/
def uhdr_add_effect_rotate (s : UhdrEncoderPrivate) (degrees : Int) :
    UhdrEncoderPrivate × UhdrErrorInfo :=
  if degrees ≠ 90 ∧ degrees ≠ 180 ∧ degrees ≠ 270 then
    (s, ⟨.errInvalidParam, "unsupported degrees, expects one of \x7b90, 180, 270\x7d"⟩)
  else ({ s with mEffects := s.mEffects ++ [.rotate degrees] }, gNoError)

/-- Source `uhdr_add_effect_crop` on an encoder handle: no argument validation. -/
def uhdr_add_effect_crop (s : UhdrEncoderPrivate) (left right top bottom : Int) :
    UhdrEncoderPrivate × UhdrErrorInfo :=
  ({ s with mEffects := s.mEffects ++ [.crop left right top bottom] }, gNoError)

/-- Source `uhdr_add_effect_resize` on an encoder handle: no argument validation. -/
def uhdr_add_effect_resize (s : UhdrEncoderPrivate) (width height : Int) :
    UhdrEncoderPrivate × UhdrErrorInfo :=
  ({ s with mEffects := s.mEffects ++ [.resize width height] }, gNoError)

/-- Source `uhdr_add_effect_crop` on a decoder handle. -/
def uhdr_add_effect_crop_dec (s : UhdrDecoderPrivate) (left right top bottom : Int) :
    UhdrDecoderPrivate × UhdrErrorInfo :=
  ({ s with mEffects := s.mEffects ++ [.crop left right top bottom] }, gNoError)

/-- Source `uhdr_add_effect_resize` on a decoder handle. -/
def uhdr_add_effect_resize_dec (s : UhdrDecoderPrivate) (width height : Int) :
    UhdrDecoderPrivate × UhdrErrorInfo :=
  ({ s with mEffects := s.mEffects ++ [.resize width height] }, gNoError)

/-- The needle occurs as a substring of the haystack (the reading of "the
detail string contains/mentions ..." used by the claims). -/
def strMentions (needle hay : String) : Prop :=
  ∃ a b : String, hay = a ++ needle ++ b

/-- Exhibiting a substring occurrence. -/
theorem strMentions_intro (a needle b : String) : strMentions needle (a ++ needle ++ b) :=
  ⟨a, b, rfl⟩

/-- A string mentions any decomposition head of a literal prefix: if
`pre = a ++ needle ++ c` then `pre ++ x` mentions `needle`. -/
theorem strMentions_of_prefix_decomp (needle pre a c x : String)
    (h : pre = a ++ needle ++ c) : strMentions needle (pre ++ x) := by
  refine ⟨a, c ++ x, ?_⟩
  simp only [h, String.append_assoc]

/-- Writing back the value a registry slot already holds is the identity. -/
theorem IntentMap.insertOrAssign_find_self {α : Type} (m : IntentMap α)
    (k : UhdrImgLabel) (v : α) (h : m.find k = some v) :
    m.insertOrAssign k v = m := by
  cases m
  cases k <;> simp_all [IntentMap.find, IntentMap.insertOrAssign]

/-- The spec's gain-map metadata bounds, stated from the spec's words (§3.2:
`max_content_boost ≥ min_content_boost`, `gamma > 0`, `offset_sdr ≥ 0`,
`offset_hdr ≥ 0`, `hdr_capacity_min ≥ 1`, `hdr_capacity_max ≥
hdr_capacity_min`); used to compare the source's validator against the spec. -/
def specMetadataBounds (md : UhdrGainmapMetadata) : Prop :=
  md.maxContentBoost ≥ md.minContentBoost ∧ md.gamma > 0 ∧ md.offsetSdr ≥ 0 ∧
    md.offsetHdr ≥ 0 ∧ md.hdrCapacityMin ≥ 1 ∧ md.hdrCapacityMax ≥ md.hdrCapacityMin

/-- Decidability of the spec bounds (used by concrete witnesses). -/
instance (md : UhdrGainmapMetadata) : Decidable (specMetadataBounds md) := by
  unfold specMetadataBounds; infer_instance

/-- Collaborator instance used by concrete witnesses: every effect kernel
succeeds and reports the requested output geometry. -/
def witnessEffectOps : EffectOps where
  applyRotate := fun _ img => some img
  applyMirror := fun _ img => some img
  applyCrop := fun img _ _ w h => { img with w := w.toNat, h := h.toNat }
  applyResize := fun w h img => some { img with w := w.toNat, h := h.toNat }
  convertRawInputToYCbCr := fun im => some ⟨im.fmt, im.cg, im.ct, im.range, im.w, im.h⟩
  convertRawToYCbCr := fun img => img
  effectToString := fun _ => ""

/-- Codec instance used by concrete witnesses: every encode succeeds. -/
def witnessEncCodecOps : EncCodecOps where
  encodeApi0 := fun _ _ _ _ _ _ => (.noError, 64, .bt709)
  encodeApi1 := fun _ _ _ _ _ _ _ => (.noError, 64, .bt709)
  encodeApi2 := fun _ _ _ _ _ _ => (.noError, 64, .bt709)
  encodeApi3 := fun _ _ _ _ _ => (.noError, 64, .bt709)
  encodeApi4 := fun _ _ _ _ _ => (.noError, 64, .bt709)

/-- Decoder codec instance used by concrete witnesses: probe reports an 8x8
primary with a 4x4 gain map; decode succeeds. -/
def witnessDecCodecOps : DecCodecOps where
  getJPEGRInfo := fun _ => (.noError, ⟨8, 8, [], [], []⟩, ⟨4, 4, [], [], []⟩)
  getMetadataFromXMP := fun _ => some ⟨"1.0", 4, 1, 1, 0, 0, 1, 4⟩
  decodeJPEGR := fun _ _ _ => (.noError, .bt709)

/-- A fresh (post-reset) encoder session used by concrete witnesses. -/
def encFresh : UhdrEncoderPrivate where
  mEffects := []
  mRawImages := IntentMap.empty
  mCompressedImages := IntentMap.empty
  mQuality := ⟨95, 95, 95, 85⟩
  mExif := []
  mOutputFormat := .jpg
  mGainmapScaleFactor := 1
  mUseMultiChannelGainmap := false
  mSailed := false
  mCompressedOutputBuffer := none
  mEncodeCallStatus := gNoError
  mMetadata := ⟨4, 1, 1, 0, 0, 1, 4⟩

/-- A sealed encoder session used by concrete witnesses and counterexamples. -/
def encSealed : UhdrEncoderPrivate := { encFresh with mSailed := true }

/-- A probed, successful decoder session used by concrete witnesses:
probe recorded an 8x8 primary and a 4x4 gain map. -/
def decProbed : UhdrDecoderPrivate where
  mEffects := []
  mUhdrCompressedImg := some ⟨.unspecified, .unspecified, .unspecifiedRange, 16, 16⟩
  mOutputFmt := .fmt64bppRGBAHalfFloat
  mOutputCt := .linear
  mOutputMaxDispBoost := 100
  mProbed := true
  mSailed := false
  mDecodedImgBuffer := none
  mGainmapImgBuffer := none
  mImgWd := 8
  mImgHt := 8
  mGainmapWd := 4
  mGainmapHt := 4
  mExif := []
  mIcc := []
  mBaseXmp := []
  mGainmapXmp := []
  mMetadata := ⟨4, 1, 1, 0, 0, 1, 4⟩
  mProbeCallStatus := gNoError
  mDecodeCallStatus := gNoError

/-- Claim C9: on a non-null codec handle (encoder or decoder),
`uhdr_add_effect_crop` succeeds for every integer rectangle and
`uhdr_add_effect_resize` succeeds for every integer width/height pair; the
effect is recorded verbatim and no range, sign or parity validation happens at
attachment time (validation is deferred to the encode/decode pipelines). -/
theorem add_effect_crop_resize_never_validate
    (e : UhdrEncoderPrivate) (d : UhdrDecoderPrivate) (l r t b w h : Int) :
    uhdr_add_effect_crop e l r t b
        = ({ e with mEffects := e.mEffects ++ [.crop l r t b] }, gNoError) ∧
      uhdr_add_effect_resize e w h
        = ({ e with mEffects := e.mEffects ++ [.resize w h] }, gNoError) ∧
      uhdr_add_effect_crop_dec d l r t b
        = ({ d with mEffects := d.mEffects ++ [.crop l r t b] }, gNoError) ∧
      uhdr_add_effect_resize_dec d w h
        = ({ d with mEffects := d.mEffects ++ [.resize w h] }, gNoError) :=
  ⟨rfl, rfl, rfl, rfl⟩

/-- Claim C3: once `uhdr_encode` has run (the session is sealed), every
further call returns the stored terminal status and leaves the session
untouched; the result is the same for every choice of effect kernels and
codec back-end, so neither effects, path selection nor codec invocation
re-runs. -/
theorem uhdr_encode_idempotent_after_first_call
    (eops : EffectOps) (cops : EncCodecOps) (s : UhdrEncoderPrivate)
    (h : s.mSailed = true) :
    uhdr_encode eops cops s = (s, s.mEncodeCallStatus) := by
  simp [uhdr_encode, h]

/-- Witness for C3 at a concrete sealed session. -/
theorem uhdr_encode_idempotent_after_first_call_witness :
    uhdr_encode witnessEffectOps witnessEncCodecOps encSealed
      = (encSealed, encSealed.mEncodeCallStatus) :=
  uhdr_encode_idempotent_after_first_call witnessEffectOps witnessEncCodecOps encSealed rfl

/-- Claim C8: the decoder dimension queries return the sentinel `-1` unless
probe has run with stored status OK, and `uhdr_get_encoded_stream` returns the
null pointer unless the encoder is sealed with stored encode status OK. -/
theorem retrievers_return_sentinels (d : UhdrDecoderPrivate) (e : UhdrEncoderPrivate)
    (hd : ¬(d.mProbed = true ∧ d.mProbeCallStatus.errorCode = .ok))
    (he : ¬(e.mSailed = true ∧ e.mEncodeCallStatus.errorCode = .ok)) :
    uhdr_dec_get_image_width d = -1 ∧ uhdr_dec_get_image_height d = -1 ∧
      uhdr_dec_get_gainmap_width d = -1 ∧ uhdr_dec_get_gainmap_height d = -1 ∧
      uhdr_get_encoded_stream e = none := by
  have hd2 : ¬d.mProbed = true ∨ d.mProbeCallStatus.errorCode ≠ .ok := by tauto
  have he2 : ¬e.mSailed = true ∨ e.mEncodeCallStatus.errorCode ≠ .ok := by tauto
  refine ⟨?_, ?_, ?_, ?_, ?_⟩
  · rw [uhdr_dec_get_image_width, if_pos hd2]
  · rw [uhdr_dec_get_image_height, if_pos hd2]
  · rw [uhdr_dec_get_gainmap_width, if_pos hd2]
  · rw [uhdr_dec_get_gainmap_height, if_pos hd2]
  · rw [uhdr_get_encoded_stream, if_pos he2]

/-- Witness for C8 at an unprobed decoder and an unsealed encoder. -/
theorem retrievers_return_sentinels_witness :
    uhdr_dec_get_image_width { decProbed with mProbed := false } = -1 ∧
      uhdr_dec_get_image_height { decProbed with mProbed := false } = -1 ∧
      uhdr_dec_get_gainmap_width { decProbed with mProbed := false } = -1 ∧
      uhdr_dec_get_gainmap_height { decProbed with mProbed := false } = -1 ∧
      uhdr_get_encoded_stream encFresh = none :=
  retrievers_return_sentinels { decProbed with mProbed := false } encFresh
    (by simp) (by simp [encFresh])

/-- Counterexample to claim C1 as stated: on a sealed encoder session,
`uhdr_enc_set_gainmap_scale_factor` does not return `InvalidOperation` — it
returns OK and mutates the stored gain-map scale factor. -/
theorem sealed_set_gainmap_scale_factor_counterexample :
    (uhdr_enc_set_gainmap_scale_factor encSealed 2).2.errorCode = .ok ∧
      (uhdr_enc_set_gainmap_scale_factor encSealed 2).1.mGainmapScaleFactor = 2 ∧
      encSealed.mGainmapScaleFactor = 1 ∧
      (uhdr_enc_set_gainmap_scale_factor encSealed 2).1 ≠ encSealed := by
  refine ⟨rfl, rfl, rfl, fun hcontra => ?_⟩
  have h2 := congrArg UhdrEncoderPrivate.mGainmapScaleFactor hcontra
  simp [uhdr_enc_set_gainmap_scale_factor, encSealed, encFresh] at h2

/-- A substring occurrence at the very end of a string. -/
theorem strMentions_suffix (a needle : String) : strMentions needle (a ++ needle) :=
  ⟨a, "", by rw [String.append_empty]⟩

/-- Claim C2: on a first `uhdr_encode` call over a session holding both a
compressed BASE and a compressed GAIN_MAP image (the API-4 shape) with at
least one effect configured, the call returns `InvalidOperation` with the
"image effects are not enabled" detail and stores it as the terminal status;
the result is the same for every effect kernel and codec back-end, so no
encode path is invoked. -/
theorem uhdr_encode_api4_rejects_effects (eops : EffectOps) (cops : EncCodecOps)
    (s : UhdrEncoderPrivate) (h0 : s.mSailed = false)
    (hb : (s.mCompressedImages.find .baseImg).isSome = true)
    (hg : (s.mCompressedImages.find .gainMapImg).isSome = true)
    (he : s.mEffects ≠ []) :
    uhdr_encode eops cops s
        = ({ s with mSailed := true, mEncodeCallStatus := imgEffectsNotEnabledErr },
            imgEffectsNotEnabledErr) ∧
      imgEffectsNotEnabledErr.errorCode = .errInvalidOperation ∧
      strMentions ("image effects are not enabled") imgEffectsNotEnabledErr.detail := by
  refine ⟨?_, rfl, ?_⟩
  · simp [uhdr_encode, h0, uhdrEncodeEffectsPhase, hb, hg, he]
  · exact ⟨"", " for inputs with compressed intent", by decide⟩

/-- An unsealed encoder session of the API-4 shape carrying one effect. -/
def encApi4WithEffect : UhdrEncoderPrivate :=
  { encFresh with
    mCompressedImages :=
      (IntentMap.empty.insertOrAssign .baseImg
          ⟨.bt709, .srgb, .fullRange, 10, 10⟩).insertOrAssign .gainMapImg
        ⟨.bt709, .srgb, .fullRange, 5, 5⟩,
    mEffects := [.rotate 90] }

/-- Witness for C2 at a concrete API-4 session with a rotate effect. -/
theorem uhdr_encode_api4_rejects_effects_witness :
    uhdr_encode witnessEffectOps witnessEncCodecOps encApi4WithEffect
        = ({ encApi4WithEffect with
              mSailed := true, mEncodeCallStatus := imgEffectsNotEnabledErr },
            imgEffectsNotEnabledErr) ∧
      imgEffectsNotEnabledErr.errorCode = .errInvalidOperation ∧
      strMentions ("image effects are not enabled") imgEffectsNotEnabledErr.detail :=
  uhdr_encode_api4_rejects_effects witnessEffectOps witnessEncCodecOps encApi4WithEffect
    rfl rfl rfl (by simp [encApi4WithEffect])

/-- Claim C6: an encoder crop effect first clamps the rectangle to the image
bounds (`left` below by 0, `right` above by the width, `top`/`bottom`
likewise); if the post-clamp width is not positive or not even the pipeline
stops with `InvalidParam` whose detail reports that width, and otherwise if
the post-clamp height is not positive or not even it stops with
`InvalidParam` reporting that height. The result does not depend on the
remaining effects or on the effect kernels, so subsequent effects are not
attempted. -/
theorem apply_effects_enc_crop_clamped_validation (ops : EffectOps)
    (hdr : UhdrRawImg) (sdr : Option UhdrRawImg) (l r t b : Int)
    (rest : List UhdrEffect) :
    (min (hdr.w : Int) r - max 0 l ≤ 0 ∨ (min (hdr.w : Int) r - max 0 l) % 2 ≠ 0 →
      applyEffectsEncLoop ops hdr sdr (.crop l r t b :: rest)
          = (hdr, sdr, cropWidthErr (min (hdr.w : Int) r - max 0 l)) ∧
        (cropWidthErr (min (hdr.w : Int) r - max 0 l)).errorCode = .errInvalidParam ∧
        strMentions (toString (min (hdr.w : Int) r - max 0 l))
          (cropWidthErr (min (hdr.w : Int) r - max 0 l)).detail) ∧
    (¬(min (hdr.w : Int) r - max 0 l ≤ 0 ∨ (min (hdr.w : Int) r - max 0 l) % 2 ≠ 0) →
      (min (hdr.h : Int) b - max 0 t ≤ 0 ∨ (min (hdr.h : Int) b - max 0 t) % 2 ≠ 0) →
      applyEffectsEncLoop ops hdr sdr (.crop l r t b :: rest)
          = (hdr, sdr, cropHeightErr (min (hdr.h : Int) b - max 0 t)) ∧
        (cropHeightErr (min (hdr.h : Int) b - max 0 t)).errorCode = .errInvalidParam ∧
        strMentions (toString (min (hdr.h : Int) b - max 0 t))
          (cropHeightErr (min (hdr.h : Int) b - max 0 t)).detail) := by
  constructor
  · intro hw
    refine ⟨?_, rfl, strMentions_suffix _ _⟩
    simp only [applyEffectsEncLoop]
    rw [if_pos hw]
  · intro hw hh
    refine ⟨?_, rfl, strMentions_suffix _ _⟩
    simp only [applyEffectsEncLoop]
    rw [if_neg hw, if_pos hh]

/-- Witness for C6: on an 8x8 HDR image, crop right=3 yields post-clamp width
3 (odd) and the width failure; crop (0,4,0,3) yields post-clamp height 3 and
the height failure. -/
theorem apply_effects_enc_crop_clamped_validation_witness :
    (applyEffectsEncLoop witnessEffectOps
          ⟨.fmt24bppYCbCrP010, .bt2100, .hlg, .limitedRange, 8, 8⟩ none
          (.crop 0 3 0 8 :: [.rotate 90])
        = (⟨.fmt24bppYCbCrP010, .bt2100, .hlg, .limitedRange, 8, 8⟩, none,
            cropWidthErr 3)) ∧
      (applyEffectsEncLoop witnessEffectOps
          ⟨.fmt24bppYCbCrP010, .bt2100, .hlg, .limitedRange, 8, 8⟩ none
          (.crop 0 4 0 3 :: [.rotate 90])
        = (⟨.fmt24bppYCbCrP010, .bt2100, .hlg, .limitedRange, 8, 8⟩, none,
            cropHeightErr 3)) := by
  constructor
  · exact ((apply_effects_enc_crop_clamped_validation witnessEffectOps
      ⟨.fmt24bppYCbCrP010, .bt2100, .hlg, .limitedRange, 8, 8⟩ none 0 3 0 8
      [.rotate 90]).1 (by decide)).1
  · exact ((apply_effects_enc_crop_clamped_validation witnessEffectOps
      ⟨.fmt24bppYCbCrP010, .bt2100, .hlg, .limitedRange, 8, 8⟩ none 0 4 0 3
      [.rotate 90]).2 (by decide) (by decide)).1

/-- Counterexample to claim C7 as stated: the resize gate rejects only zero or
odd destination dimensions. The pair `(-2, 2)` has a non-positive member, yet
the pipeline does not return `InvalidParam`: with kernels that accept the
request it applies the resize and succeeds. -/
theorem resize_negative_even_not_rejected_counterexample :
    (applyEffectsEncLoop witnessEffectOps
          ⟨.fmt24bppYCbCrP010, .bt2100, .hlg, .limitedRange, 8, 8⟩ none
          [.resize (-2) 2]).2.2.errorCode ≠ .errInvalidParam ∧
      (applyEffectsEncLoop witnessEffectOps
          ⟨.fmt24bppYCbCrP010, .bt2100, .hlg, .limitedRange, 8, 8⟩ none
          [.resize (-2) 2]).2.2 = gNoError := by
  exact ⟨by decide, by decide⟩

/-- Claim C7 (amended): an encoder resize effect whose destination width or
height is zero or odd makes the pipeline return `InvalidParam` (reporting both
destination values) before any resizing is attempted — the result does not
depend on the remaining effects or the effect kernels. Negative even values
pass this gate. -/
theorem apply_effects_enc_resize_zero_or_odd_rejected (ops : EffectOps)
    (hdr : UhdrRawImg) (sdr : Option UhdrRawImg) (w h : Int) (rest : List UhdrEffect)
    (hbad : w = 0 ∨ h = 0 ∨ w % 2 ≠ 0 ∨ h % 2 ≠ 0) :
    applyEffectsEncLoop ops hdr sdr (.resize w h :: rest)
      = (hdr, sdr, resizeDimsErr w h) := by
  simp only [applyEffectsEncLoop]
  rw [if_pos hbad]

/-- Witness for C7 (amended) at destination (0, 2). -/
theorem apply_effects_enc_resize_zero_or_odd_rejected_witness :
    applyEffectsEncLoop witnessEffectOps
        ⟨.fmt24bppYCbCrP010, .bt2100, .hlg, .limitedRange, 8, 8⟩ none
        (.resize 0 2 :: [.rotate 90])
      = (⟨.fmt24bppYCbCrP010, .bt2100, .hlg, .limitedRange, 8, 8⟩, none,
          resizeDimsErr 0 2) :=
  apply_effects_enc_resize_zero_or_odd_rejected witnessEffectOps
    ⟨.fmt24bppYCbCrP010, .bt2100, .hlg, .limitedRange, 8, 8⟩ none 0 2 [.rotate 90]
    (by decide)

/-- Claim C5: `uhdr_enc_set_gainmap_image` returns `InvalidParam` and leaves
the session unchanged for every metadata record violating the spec bounds; in
particular, a record with `hdr_capacity_min = 0.5` whose earlier fields pass
their checks fails with a detail mentioning "hdr capacity min" (whichever of
the two capacity checks fires). -/
theorem uhdr_enc_set_gainmap_image_metadata_validation (s : UhdrEncoderPrivate)
    (img : Option UhdrCompressedImgIn) (md : UhdrGainmapMetadata) :
    (¬specMetadataBounds md →
      (uhdr_enc_set_gainmap_image s img (some md)).1 = s ∧
        (uhdr_enc_set_gainmap_image s img (some md)).2.errorCode = .errInvalidParam) ∧
    (md.maxContentBoost ≥ md.minContentBoost → md.gamma > 0 → md.offsetSdr ≥ 0 →
      md.offsetHdr ≥ 0 → md.hdrCapacityMin = 1 / 2 →
        (uhdr_enc_set_gainmap_image s img (some md)).1 = s ∧
          (uhdr_enc_set_gainmap_image s img (some md)).2.errorCode = .errInvalidParam ∧
          strMentions ("hdr capacity min")
            (uhdr_enc_set_gainmap_image s img (some md)).2.detail) := by
  constructor
  · intro hbad
    by_cases h1 : md.maxContentBoost < md.minContentBoost
    · simp [uhdr_enc_set_gainmap_image, h1]
    · by_cases h2 : md.gamma ≤ 0
      · simp [uhdr_enc_set_gainmap_image, h1, h2]
      · by_cases h3 : md.offsetSdr < 0
        · simp [uhdr_enc_set_gainmap_image, h1, h2, h3]
        · by_cases h4 : md.offsetHdr < 0
          · simp [uhdr_enc_set_gainmap_image, h1, h2, h3, h4]
          · by_cases h5 : md.hdrCapacityMax < md.hdrCapacityMin
            · simp [uhdr_enc_set_gainmap_image, h1, h2, h3, h4, h5]
            · by_cases h6 : md.hdrCapacityMin < 1
              · simp [uhdr_enc_set_gainmap_image, h1, h2, h3, h4, h5, h6]
              · exact absurd
                  ⟨not_lt.mp h1, not_le.mp h2, not_lt.mp h3, not_lt.mp h4,
                    not_lt.mp h6, not_lt.mp h5⟩ hbad
  · intro h1 h2 h3 h4 hmin
    have e1 : ¬(md.maxContentBoost < md.minContentBoost) := not_lt.mpr h1
    have e2 : ¬(md.gamma ≤ 0) := not_le.mpr h2
    have e3 : ¬(md.offsetSdr < 0) := not_lt.mpr h3
    have e4 : ¬(md.offsetHdr < 0) := not_lt.mpr h4
    by_cases h5 : md.hdrCapacityMax < md.hdrCapacityMin
    · have hred : uhdr_enc_set_gainmap_image s img (some md)
          = (s, ⟨.errInvalidParam,
              "received bad value for hdr capacity min " ++ fmtF md.hdrCapacityMin
                ++ " > max " ++ fmtF md.hdrCapacityMax⟩) := by
        simp [uhdr_enc_set_gainmap_image, e1, e2, e3, e4, h5]
      rw [hred]
      refine ⟨rfl, rfl, ?_⟩
      simp only [String.append_assoc]
      exact strMentions_of_prefix_decomp _ _ ("received bad value for ") (" ") _ (by decide)
    · have h6 : md.hdrCapacityMin < 1 := by rw [hmin]; norm_num
      have hred : uhdr_enc_set_gainmap_image s img (some md)
          = (s, ⟨.errInvalidParam,
              "received bad value for hdr capacity min " ++ fmtF md.hdrCapacityMin
                ++ ", expects to be >= 1.0f"⟩) := by
        simp [uhdr_enc_set_gainmap_image, e1, e2, e3, e4, h5, h6]
      rw [hred]
      refine ⟨rfl, rfl, ?_⟩
      simp only [String.append_assoc]
      exact strMentions_of_prefix_decomp _ _ ("received bad value for ") (" ") _ (by decide)

/-- Witness for C5: metadata with `hdr_capacity_min = 0.5` and otherwise
valid fields on a fresh session with a valid compressed gain-map argument. -/
theorem uhdr_enc_set_gainmap_image_metadata_validation_witness :
    ((uhdr_enc_set_gainmap_image encFresh (some ⟨true, 4, 4, .bt709, .srgb, .fullRange⟩)
          (some ⟨2, 1, 1, 0, 0, 1 / 2, 2⟩)).1 = encFresh ∧
        (uhdr_enc_set_gainmap_image encFresh (some ⟨true, 4, 4, .bt709, .srgb, .fullRange⟩)
          (some ⟨2, 1, 1, 0, 0, 1 / 2, 2⟩)).2.errorCode = .errInvalidParam) ∧
      strMentions ("hdr capacity min")
        (uhdr_enc_set_gainmap_image encFresh (some ⟨true, 4, 4, .bt709, .srgb, .fullRange⟩)
          (some ⟨2, 1, 1, 0, 0, 1 / 2, 2⟩)).2.detail := by
  have h := uhdr_enc_set_gainmap_image_metadata_validation encFresh
    (some ⟨true, 4, 4, .bt709, .srgb, .fullRange⟩) ⟨2, 1, 1, 0, 0, 1 / 2, 2⟩
  have h2 := h.2 (by norm_num) (by norm_num) (by norm_num) (by norm_num) rfl
  exact ⟨⟨h2.1, h2.2.1⟩, h2.2.2⟩

/-- Source `uhdr_dec_probe` never changes the configured output transfer and output
pixel format. -/
theorem uhdr_dec_probe_preserves_config (ops : DecCodecOps) (s : UhdrDecoderPrivate) :
    (uhdr_dec_probe ops s).1.mOutputCt = s.mOutputCt ∧
      (uhdr_dec_probe ops s).1.mOutputFmt = s.mOutputFmt := by
  unfold uhdr_dec_probe
  split
  · simp
  · rcases himg : s.mUhdrCompressedImg with _ | img
    · simp [himg]
    · simp only [himg]
      repeat' split
      all_goals simp

/-- On an already probed session, `uhdr_dec_probe` is the identity returning
the stored probe status. -/
theorem uhdr_dec_probe_of_probed (ops : DecCodecOps) (s : UhdrDecoderPrivate)
    (h : s.mProbed = true) : uhdr_dec_probe ops s = (s, s.mProbeCallStatus) := by
  simp [uhdr_dec_probe, h]

/-- Claim C4: on a first `uhdr_decode` call whose (implicit) probe succeeds,
every configured `(output_transfer, output_pixel_format)` pair other than
(HLG, RGBA1010102), (PQ, RGBA1010102), (LINEAR, RGBA_HALF_FLOAT) and
(SRGB, RGBA8888) maps to the unspecified internal output format and makes
`uhdr_decode` return `InvalidParam`. -/
theorem uhdr_decode_invalid_output_pair (dops : DecCodecOps) (eops : EffectOps)
    (s : UhdrDecoderPrivate) (h0 : s.mSailed = false)
    (hp : (uhdr_dec_probe dops s).2.errorCode = .ok)
    (hpair : ¬((s.mOutputCt = .hlg ∧ s.mOutputFmt = .fmt32bppRGBA1010102) ∨
      (s.mOutputCt = .pq ∧ s.mOutputFmt = .fmt32bppRGBA1010102) ∨
      (s.mOutputCt = .linear ∧ s.mOutputFmt = .fmt64bppRGBAHalfFloat) ∨
      (s.mOutputCt = .srgb ∧ s.mOutputFmt = .fmt32bppRGBA8888))) :
    mapCtFmtToInternalOutputFmt s.mOutputCt s.mOutputFmt = .unspecified ∧
      (uhdr_decode dops eops s).2
        = ⟨.errInvalidParam,
            "unsupported output pixel format and output color transfer pair"⟩ := by
  have hmap : mapCtFmtToInternalOutputFmt s.mOutputCt s.mOutputFmt = .unspecified := by
    unfold mapCtFmtToInternalOutputFmt
    split_ifs with a1 a2 a3 a4
    · exact absurd (Or.inl a1) hpair
    · exact absurd (Or.inr (Or.inl a2)) hpair
    · exact absurd (Or.inr (Or.inr (Or.inl a3))) hpair
    · exact absurd (Or.inr (Or.inr (Or.inr a4))) hpair
    · rfl
  obtain ⟨hct, hfmt⟩ := uhdr_dec_probe_preserves_config dops s
  refine ⟨hmap, ?_⟩
  simp only [uhdr_decode, h0, Bool.false_eq_true, if_false, hp, ne_eq,
    not_true_eq_false, ite_false]
  simp only [hct, hfmt, hmap]
  simp

/-- Witness for C4 at the pair (SRGB, RGBA1010102). -/
theorem uhdr_decode_invalid_output_pair_witness :
    mapCtFmtToInternalOutputFmt
        ({ decProbed with mOutputCt := .srgb, mOutputFmt := .fmt32bppRGBA1010102 }
          : UhdrDecoderPrivate).mOutputCt
        ({ decProbed with mOutputCt := .srgb, mOutputFmt := .fmt32bppRGBA1010102 }
          : UhdrDecoderPrivate).mOutputFmt = .unspecified ∧
      (uhdr_decode witnessDecCodecOps witnessEffectOps
          { decProbed with mOutputCt := .srgb, mOutputFmt := .fmt32bppRGBA1010102 }).2
        = ⟨.errInvalidParam,
            "unsupported output pixel format and output color transfer pair"⟩ :=
  uhdr_decode_invalid_output_pair witnessDecCodecOps witnessEffectOps
    { decProbed with mOutputCt := .srgb, mOutputFmt := .fmt32bppRGBA1010102 }
    rfl rfl (by decide)

/-- The decoder effects pipeline touches only the decoded-surface buffers,
never the probe-time dimension fields, the probe flag or the probe status. -/
theorem applyEffectsDec_preserves_probe_fields (ops : EffectOps) (s : UhdrDecoderPrivate) :
    (applyEffectsDec ops s).1.mImgWd = s.mImgWd ∧
      (applyEffectsDec ops s).1.mImgHt = s.mImgHt ∧
      (applyEffectsDec ops s).1.mGainmapWd = s.mGainmapWd ∧
      (applyEffectsDec ops s).1.mGainmapHt = s.mGainmapHt ∧
      (applyEffectsDec ops s).1.mProbed = s.mProbed ∧
      (applyEffectsDec ops s).1.mProbeCallStatus = s.mProbeCallStatus := by
  unfold applyEffectsDec
  repeat' split
  all_goals simp

/-- Claim C10: on a probed session, `uhdr_decode` (including its effects
pipeline, whatever surfaces the effect kernels produce) never changes the
probe-time dimension fields, so after the call the four dimension queries
still answer with the dimensions parsed at probe time, not with the decoded
(possibly rotated/cropped/resized) buffer dimensions. -/
theorem uhdr_decode_preserves_probe_dims (dops : DecCodecOps) (eops : EffectOps)
    (s : UhdrDecoderPrivate) (hp : s.mProbed = true)
    (hok : s.mProbeCallStatus.errorCode = .ok) :
    (uhdr_decode dops eops s).1.mImgWd = s.mImgWd ∧
      (uhdr_decode dops eops s).1.mImgHt = s.mImgHt ∧
      (uhdr_decode dops eops s).1.mGainmapWd = s.mGainmapWd ∧
      (uhdr_decode dops eops s).1.mGainmapHt = s.mGainmapHt ∧
      uhdr_dec_get_image_width (uhdr_decode dops eops s).1 = (s.mImgWd : Int) ∧
      uhdr_dec_get_image_height (uhdr_decode dops eops s).1 = (s.mImgHt : Int) ∧
      uhdr_dec_get_gainmap_width (uhdr_decode dops eops s).1 = (s.mGainmapWd : Int) ∧
      uhdr_dec_get_gainmap_height (uhdr_decode dops eops s).1 = (s.mGainmapHt : Int) := by
  have hkey : (uhdr_decode dops eops s).1.mImgWd = s.mImgWd ∧
      (uhdr_decode dops eops s).1.mImgHt = s.mImgHt ∧
      (uhdr_decode dops eops s).1.mGainmapWd = s.mGainmapWd ∧
      (uhdr_decode dops eops s).1.mGainmapHt = s.mGainmapHt ∧
      (uhdr_decode dops eops s).1.mProbed = s.mProbed ∧
      (uhdr_decode dops eops s).1.mProbeCallStatus = s.mProbeCallStatus := by
    by_cases hs : s.mSailed
    · simp [uhdr_decode, hs]
    · simp only [uhdr_decode, hs, uhdr_dec_probe_of_probed dops s hp, hok,
        Bool.false_eq_true, if_false]
      repeat' split
      all_goals simp [applyEffectsDec_preserves_probe_fields]
  obtain ⟨k1, k2, k3, k4, k5, k6⟩ := hkey
  refine ⟨k1, k2, k3, k4, ?_, ?_, ?_, ?_⟩ <;>
    simp [uhdr_dec_get_image_width, uhdr_dec_get_image_height,
      uhdr_dec_get_gainmap_width, uhdr_dec_get_gainmap_height,
      k1, k2, k3, k4, k5, k6, hp, hok]

/-- Witness for C10: a probed 8x8/4x4 session carrying a resize-to-2x2
effect still reports the probe dimensions after decode. -/
theorem uhdr_decode_preserves_probe_dims_witness :
    (uhdr_decode witnessDecCodecOps witnessEffectOps
          { decProbed with mEffects := [.resize 2 2] }).1.mImgWd = 8 ∧
      (uhdr_decode witnessDecCodecOps witnessEffectOps
          { decProbed with mEffects := [.resize 2 2] }).1.mImgHt = 8 ∧
      (uhdr_decode witnessDecCodecOps witnessEffectOps
          { decProbed with mEffects := [.resize 2 2] }).1.mGainmapWd = 4 ∧
      (uhdr_decode witnessDecCodecOps witnessEffectOps
          { decProbed with mEffects := [.resize 2 2] }).1.mGainmapHt = 4 ∧
      uhdr_dec_get_image_width (uhdr_decode witnessDecCodecOps witnessEffectOps
          { decProbed with mEffects := [.resize 2 2] }).1 = 8 ∧
      uhdr_dec_get_image_height (uhdr_decode witnessDecCodecOps witnessEffectOps
          { decProbed with mEffects := [.resize 2 2] }).1 = 8 ∧
      uhdr_dec_get_gainmap_width (uhdr_decode witnessDecCodecOps witnessEffectOps
          { decProbed with mEffects := [.resize 2 2] }).1 = 4 ∧
      uhdr_dec_get_gainmap_height (uhdr_decode witnessDecCodecOps witnessEffectOps
          { decProbed with mEffects := [.resize 2 2] }).1 = 4 :=
  uhdr_decode_preserves_probe_dims witnessDecCodecOps witnessEffectOps
    { decProbed with mEffects := [.resize 2 2] } rfl rfl

/-- Source `uhdr_enc_set_quality` on a sealed session rejects with the sealed-state
error and leaves the session unchanged, for any arguments its validators
accept (the unsealed counterpart succeeds). -/
theorem uhdr_enc_set_quality_sealed (s : UhdrEncoderPrivate) (hs : s.mSailed = true)
    (q : Int) (i : UhdrImgLabel)
    (hok : (uhdr_enc_set_quality { s with mSailed := false } q i).2.errorCode = .ok) :
    uhdr_enc_set_quality s q i = (s, sealedStateErr) := by
  by_cases hq : q < 0 ∨ q > 100
  · simp [uhdr_enc_set_quality, hq] at hok
  · simp [uhdr_enc_set_quality, hq, hs]

/-- Source `uhdr_enc_set_exif_data` on a sealed session: see
`uhdr_enc_set_quality_sealed`. -/
theorem uhdr_enc_set_exif_data_sealed (s : UhdrEncoderPrivate) (hs : s.mSailed = true)
    (exif : Option UhdrMemBlockIn)
    (hok : (uhdr_enc_set_exif_data { s with mSailed := false } exif).2.errorCode = .ok) :
    uhdr_enc_set_exif_data s exif = (s, sealedStateErr) := by
  cases exif with
  | none => simp [uhdr_enc_set_exif_data] at hok
  | some e =>
    cases he : e.data with
    | none => simp [uhdr_enc_set_exif_data, he] at hok
    | some bytes =>
      by_cases hc : e.capacity < e.dataSz
      · simp [uhdr_enc_set_exif_data, he, hc] at hok
      · simp [uhdr_enc_set_exif_data, he, hc, hs]

/-- Source `uhdr_enc_set_output_format` on a sealed session: see
`uhdr_enc_set_quality_sealed`. -/
theorem uhdr_enc_set_output_format_sealed (s : UhdrEncoderPrivate)
    (hs : s.mSailed = true) (mt : UhdrCodecType)
    (hok : (uhdr_enc_set_output_format { s with mSailed := false } mt).2.errorCode = .ok) :
    uhdr_enc_set_output_format s mt = (s, sealedStateErr) := by
  by_cases hm : mt = .jpg
  · subst hm; simp [uhdr_enc_set_output_format, hs]
  · simp [uhdr_enc_set_output_format, hm] at hok

/-- Source `uhdr_enc_validate_and_set_compressed_img` on a sealed session: see
`uhdr_enc_set_quality_sealed`. -/
theorem uhdr_enc_validate_and_set_compressed_img_sealed (s : UhdrEncoderPrivate)
    (hs : s.mSailed = true) (img : Option UhdrCompressedImgIn) (intent : UhdrImgLabel)
    (hok : (uhdr_enc_validate_and_set_compressed_img { s with mSailed := false }
        img intent).2.errorCode = .ok) :
    uhdr_enc_validate_and_set_compressed_img s img intent = (s, sealedStateErr) := by
  cases img with
  | none => simp [uhdr_enc_validate_and_set_compressed_img] at hok
  | some im =>
    by_cases h1 : im.dataNonNull = false
    · simp [uhdr_enc_validate_and_set_compressed_img, h1] at hok
    · by_cases h2 : im.capacity < im.dataSz
      · simp [uhdr_enc_validate_and_set_compressed_img, h1, h2] at hok
      · simp [uhdr_enc_validate_and_set_compressed_img, h1, h2, hs]

/-- Source `uhdr_enc_set_gainmap_image` on a sealed session: see
`uhdr_enc_set_quality_sealed`. -/
theorem uhdr_enc_set_gainmap_image_sealed (s : UhdrEncoderPrivate)
    (hs : s.mSailed = true) (img : Option UhdrCompressedImgIn)
    (md : Option UhdrGainmapMetadata)
    (hok : (uhdr_enc_set_gainmap_image { s with mSailed := false }
        img md).2.errorCode = .ok) :
    uhdr_enc_set_gainmap_image s img md = (s, sealedStateErr) := by
  cases md with
  | none => simp [uhdr_enc_set_gainmap_image] at hok
  | some m =>
    by_cases h1 : m.maxContentBoost < m.minContentBoost
    · simp [uhdr_enc_set_gainmap_image, h1] at hok
    · by_cases h2 : m.gamma ≤ 0
      · simp [uhdr_enc_set_gainmap_image, h1, h2] at hok
      · by_cases h3 : m.offsetSdr < 0
        · simp [uhdr_enc_set_gainmap_image, h1, h2, h3] at hok
        · by_cases h4 : m.offsetHdr < 0
          · simp [uhdr_enc_set_gainmap_image, h1, h2, h3, h4] at hok
          · by_cases h5 : m.hdrCapacityMax < m.hdrCapacityMin
            · simp [uhdr_enc_set_gainmap_image, h1, h2, h3, h4, h5] at hok
            · by_cases h6 : m.hdrCapacityMin < 1
              · simp [uhdr_enc_set_gainmap_image, h1, h2, h3, h4, h5, h6] at hok
              · simp only [uhdr_enc_set_gainmap_image, h1, h2, h3, h4, h5, h6,
                  if_false] at hok ⊢
                by_cases hv : (uhdr_enc_validate_and_set_compressed_img
                    { s with mSailed := false } img .gainMapImg).2.errorCode = .ok
                · have hd := uhdr_enc_validate_and_set_compressed_img_sealed
                    s hs img .gainMapImg hv
                  simp [hd, sealedStateErr]
                · simp [hv] at hok

/-- Source `uhdr_enc_set_raw_image` on a sealed session: see
`uhdr_enc_set_quality_sealed`. The sealed gate sits after the validators and
the resolution-mismatch checks, so any argument the unsealed counterpart
accepts reaches it. -/
theorem uhdr_enc_set_raw_image_sealed (ops : EffectOps) (s : UhdrEncoderPrivate)
    (hs : s.mSailed = true) (img : Option UhdrRawImgIn) (intent : UhdrImgLabel)
    (hok : (uhdr_enc_set_raw_image ops { s with mSailed := false }
        img intent).2.errorCode = .ok) :
    uhdr_enc_set_raw_image ops s img intent = (s, sealedStateErr) := by
  cases img with
  | none => simp [uhdr_enc_set_raw_image] at hok
  | some im =>
    cases hv : uhdr_enc_set_raw_image_validate im intent with
    | some msg => simp [uhdr_enc_set_raw_image, hv] at hok
    | none =>
      simp only [uhdr_enc_set_raw_image, hv] at hok ⊢
      cases intent with
      | hdrImg =>
        cases hsd : s.mRawImages.find .sdrImg with
        | none => simp_all [uhdr_enc_set_raw_image_commit, hs]
        | some sdrEntry =>
          by_cases hmm : im.w ≠ sdrEntry.w ∨ im.h ≠ sdrEntry.h
          · simp_all
          · simp_all [uhdr_enc_set_raw_image_commit, hs]
      | sdrImg =>
        cases hhd : s.mRawImages.find .hdrImg with
        | none => simp_all [uhdr_enc_set_raw_image_commit, hs]
        | some hdrEntry =>
          by_cases hmm : im.w ≠ hdrEntry.w ∨ im.h ≠ hdrEntry.h
          · simp_all
          · simp_all [uhdr_enc_set_raw_image_commit, hs]
      | baseImg =>
        unfold uhdr_enc_set_raw_image_validate at hv
        rw [if_pos (by decide)] at hv
        simp at hv
      | gainMapImg =>
        unfold uhdr_enc_set_raw_image_validate at hv
        rw [if_pos (by decide)] at hv
        simp at hv

/-- Claim C1 (amended): on a sealed encoder session, the configuration calls
that consult the sealed flag — `uhdr_enc_set_raw_image`,
`uhdr_enc_set_compressed_image`, `uhdr_enc_set_gainmap_image`,
`uhdr_enc_set_quality`, `uhdr_enc_set_exif_data`,
`uhdr_enc_set_output_format` — return `InvalidOperation` and leave the
session unchanged whenever their arguments pass parameter validation (the
same call on the unsealed session succeeds). But
`uhdr_enc_set_gainmap_scale_factor`, `uhdr_enc_set_using_multi_channel_gainmap`
and the `uhdr_add_effect_*` functions perform no sealed check: they return OK
and mutate the sealed session (scale factor, flag, effects list). -/
theorem sealed_encoder_configuration_calls (s : UhdrEncoderPrivate)
    (hs : s.mSailed = true) :
    (∀ q i, (uhdr_enc_set_quality { s with mSailed := false } q i).2.errorCode = .ok →
      uhdr_enc_set_quality s q i = (s, sealedStateErr)) ∧
    (∀ exif, (uhdr_enc_set_exif_data { s with mSailed := false } exif).2.errorCode = .ok →
      uhdr_enc_set_exif_data s exif = (s, sealedStateErr)) ∧
    (∀ mt, (uhdr_enc_set_output_format { s with mSailed := false } mt).2.errorCode = .ok →
      uhdr_enc_set_output_format s mt = (s, sealedStateErr)) ∧
    (∀ img intent,
      (uhdr_enc_set_compressed_image { s with mSailed := false } img intent).2.errorCode
          = .ok →
        uhdr_enc_set_compressed_image s img intent = (s, sealedStateErr)) ∧
    (∀ img md,
      (uhdr_enc_set_gainmap_image { s with mSailed := false } img md).2.errorCode = .ok →
        uhdr_enc_set_gainmap_image s img md = (s, sealedStateErr)) ∧
    (∀ ops img intent,
      (uhdr_enc_set_raw_image ops { s with mSailed := false } img intent).2.errorCode
          = .ok →
        uhdr_enc_set_raw_image ops s img intent = (s, sealedStateErr)) ∧
    (∀ f, uhdr_enc_set_gainmap_scale_factor s f
        = ({ s with mGainmapScaleFactor := f }, gNoError)) ∧
    (∀ b2, uhdr_enc_set_using_multi_channel_gainmap s b2
        = ({ s with mUseMultiChannelGainmap := b2 }, gNoError)) ∧
    (∀ l r t b, uhdr_add_effect_crop s l r t b
        = ({ s with mEffects := s.mEffects ++ [.crop l r t b] }, gNoError)) ∧
    (∀ w h, uhdr_add_effect_resize s w h
        = ({ s with mEffects := s.mEffects ++ [.resize w h] }, gNoError)) ∧
    (∀ dir, uhdr_add_effect_mirror s dir
        = ({ s with mEffects := s.mEffects ++ [.mirror dir] }, gNoError)) ∧
    uhdr_add_effect_rotate s 90
      = ({ s with mEffects := s.mEffects ++ [.rotate 90] }, gNoError) := by
  refine ⟨fun q i h => uhdr_enc_set_quality_sealed s hs q i h,
    fun exif h => uhdr_enc_set_exif_data_sealed s hs exif h,
    fun mt h => uhdr_enc_set_output_format_sealed s hs mt h,
    fun img intent h => uhdr_enc_validate_and_set_compressed_img_sealed s hs img intent h,
    fun img md h => uhdr_enc_set_gainmap_image_sealed s hs img md h,
    fun ops img intent h => uhdr_enc_set_raw_image_sealed ops s hs img intent h,
    fun f => rfl, fun b2 => rfl, fun l r t b => rfl, fun w h => rfl,
    fun dir => rfl, ?_⟩
  simp [uhdr_add_effect_rotate]

/-- A conforming 16x16 P010 HDR raw-image argument. -/
def rawImgInEx : UhdrRawImgIn :=
  ⟨.fmt24bppYCbCrP010, .bt2100, .hlg, .limitedRange, 16, 16, true, true, true, 16, 16, 16⟩

/-- Witness for C1 (amended) at a concrete sealed session with valid
arguments for each call. -/
theorem sealed_encoder_configuration_calls_witness :
    uhdr_enc_set_quality encSealed 50 .hdrImg = (encSealed, sealedStateErr) ∧
      uhdr_enc_set_exif_data encSealed (some ⟨some [1, 2], 2, 2⟩)
        = (encSealed, sealedStateErr) ∧
      uhdr_enc_set_output_format encSealed .jpg = (encSealed, sealedStateErr) ∧
      uhdr_enc_set_compressed_image encSealed
          (some ⟨true, 4, 4, .bt709, .srgb, .fullRange⟩) .sdrImg
        = (encSealed, sealedStateErr) ∧
      uhdr_enc_set_gainmap_image encSealed (some ⟨true, 4, 4, .bt709, .srgb, .fullRange⟩)
          (some ⟨2, 1, 1, 0, 0, 1, 2⟩)
        = (encSealed, sealedStateErr) ∧
      uhdr_enc_set_raw_image witnessEffectOps encSealed (some rawImgInEx) .hdrImg
        = (encSealed, sealedStateErr) ∧
      uhdr_enc_set_gainmap_scale_factor encSealed 4
        = ({ encSealed with mGainmapScaleFactor := 4 }, gNoError) ∧
      uhdr_enc_set_using_multi_channel_gainmap encSealed true
        = ({ encSealed with mUseMultiChannelGainmap := true }, gNoError) ∧
      uhdr_add_effect_crop encSealed 0 4 0 4
        = ({ encSealed with mEffects := [.crop 0 4 0 4] }, gNoError) ∧
      uhdr_add_effect_resize encSealed 4 4
        = ({ encSealed with mEffects := [.resize 4 4] }, gNoError) := by
  have h := sealed_encoder_configuration_calls encSealed rfl
  refine ⟨h.1 50 .hdrImg (by decide), h.2.1 (some ⟨some [1, 2], 2, 2⟩) (by decide),
    h.2.2.1 .jpg (by decide),
    h.2.2.2.1 (some ⟨true, 4, 4, .bt709, .srgb, .fullRange⟩) .sdrImg (by decide),
    h.2.2.2.2.1 (some ⟨true, 4, 4, .bt709, .srgb, .fullRange⟩)
      (some ⟨2, 1, 1, 0, 0, 1, 2⟩) ?_,
    h.2.2.2.2.2.1 witnessEffectOps (some rawImgInEx) .hdrImg (by decide),
    h.2.2.2.2.2.2.1 4, h.2.2.2.2.2.2.2.1 true,
    h.2.2.2.2.2.2.2.2.1 0 4 0 4, h.2.2.2.2.2.2.2.2.2.1 4 4⟩
  · norm_num [uhdr_enc_set_gainmap_image, uhdr_enc_validate_and_set_compressed_img,
      encSealed, encFresh, gNoError]

end UltraHdr
